

import Mathlib

/-
Verification development for the motion-controlled endless runner
(ainfinite-floor-is-lava-chinese).  The definitions below are a shallow
embedding of the gameplay core:

  * src/utils/gameUtils.ts   — detectGesture / resetGestureState and the
    GAME_CONSTANTS configuration object,
  * src/components/GameEngine.tsx — the input handler (lane changes, jump
    start), spawnObstacle / spawnDecoration, and updateGameLogic (speed
    formula, jump physics, entity advance, collision with invincibility,
    scoring and culling).

JavaScript numbers are modelled as rationals (ℚ).  A JavaScript runtime
error (reading a property of `undefined`) is modelled as `none` of an
`Option` result.  `Math.random()` is modelled as an ambient stream
`rng : ℕ → ℚ` of draws consumed in order.
-/

namespace FloorIsLava

/-! ## Configuration constants (GAME_CONSTANTS in src/utils/gameUtils.ts) -/

def JUMP_HEIGHT : ℚ := 7/2

def JUMP_DURATION : ℚ := 7/10

def START_SPEED : ℚ := 15

def MAX_SPEED : ℚ := 40

def SPAWN_DISTANCE : ℚ := -60

def LANE_CHANGE_COOLDOWN : ℚ := 400

def JUMP_COOLDOWN : ℚ := 800

def LEAN_THRESHOLD_LEFT : ℚ := 3/5

def LEAN_THRESHOLD_RIGHT : ℚ := 2/5

def JUMP_THRESHOLD_Y : ℚ := 1/20

def INVINCIBILITY_DURATION : ℚ := 2000

/-! ## Gesture classifier (detectGesture in src/utils/gameUtils.ts) -/

inductive Gesture where
  | NONE
  | LEFT
  | RIGHT
  | JUMP
deriving DecidableEq, Repr

/-- One MediaPipe landmark: normalized screen coordinates. -/
structure Landmark where
  x : ℚ
  y : ℚ
deriving DecidableEq, Repr

/-- The module-level mutable state of the classifier
(hipYHistory, baselineHipY, lastJumpTime, lastGestureTime). -/
structure GestureState where
  hipYHistory : List ℚ
  baselineHipY : ℚ
  lastJumpTime : ℚ
  lastGestureTime : ℚ
deriving DecidableEq, Repr

/-- resetGestureState from src/utils/gameUtils.ts. -/
def resetGestureState : GestureState :=
  { hipYHistory := [], baselineHipY := 0, lastJumpTime := 0, lastGestureTime := 0 }

/-- Torso Y: the average of the left/right hip and left/right shoulder Y
coordinates (`currentY` in detectGesture). -/
def torsoY (lh rh ls rs : Landmark) : ℚ :=
  (lh.y + rh.y + ls.y + rs.y) / 4

/-- Baseline drift of detectGesture (src/utils/gameUtils.ts lines
134-140): once calibrated, if the torso is within 0.05 of the baseline,
nudge the baseline 5% toward the current value; a larger excursion (a
suspected jump) leaves the baseline alone. -/
def driftBaseline (st : GestureState) (currentY : ℚ) : GestureState :=
  if |currentY - st.baselineHipY| < 5/100 then
    { st with baselineHipY :=
        st.baselineHipY + (currentY - st.baselineHipY) * (5/100) }
  else st

/-- Post-calibration classification of detectGesture (src/utils/gameUtils.ts
lines 142-171), applied to the drifted state: the jump test guarded by the
jump and lane-change cooldowns, then the lane-change debounce, then the
two lean tests on the nose X.  The nested source conditional
`if (jumpDiff > T) { if (cooldowns) return JUMP }` falls through to the
lean tests when the inner check fails, which is exactly the flattened
conjunction used here. -/
def classifyCalibrated (nose : Landmark) (currentY timestamp : ℚ)
    (st2 : GestureState) : Gesture × GestureState :=
  let jumpDiff := st2.baselineHipY - currentY
  let timeSinceLastGesture := timestamp - st2.lastGestureTime
  if jumpDiff > JUMP_THRESHOLD_Y ∧
      timestamp - st2.lastJumpTime > JUMP_COOLDOWN ∧
      timeSinceLastGesture > LANE_CHANGE_COOLDOWN then
    (Gesture.JUMP, { st2 with lastJumpTime := timestamp })
  else if timeSinceLastGesture < LANE_CHANGE_COOLDOWN then
    (Gesture.NONE, st2)
  else if nose.x > LEAN_THRESHOLD_LEFT then
    (Gesture.LEFT, { st2 with lastGestureTime := timestamp })
  else if nose.x < LEAN_THRESHOLD_RIGHT then
    (Gesture.RIGHT, { st2 with lastGestureTime := timestamp })
  else
    (Gesture.NONE, st2)

/-- Body of detectGesture on a sample whose five landmarks are all
present.  Mirrors src/utils/gameUtils.ts lines 126-172: calibration (push
the torso Y and set the baseline to the running mean) for the first 30
samples always returning NONE, then baseline drift followed by the
jump/lean classification.  On such samples this is detectGesture's exact
behavior (see detectGestureNose_some). -/
def detectGestureCore (nose lh rh ls rs : Landmark) (timestamp : ℚ)
    (st : GestureState) : Gesture × GestureState :=
  let currentY := torsoY lh rh ls rs
  if st.hipYHistory.length < 30 then
    let hist := st.hipYHistory ++ [currentY]
    (Gesture.NONE,
      { st with hipYHistory := hist, baselineHipY := hist.sum / (hist.length : ℚ) })
  else
    classifyCalibrated nose currentY timestamp (driftBaseline st currentY)

/-- Post-calibration classification with the nose still optional: the
source reads `nose.x` for the first time at the lean test
(src/utils/gameUtils.ts line 163), after the jump test and the
lane-change debounce, so a missing nose throws (result `none`) exactly
when the lean test is reached, while the jump and debounce outcomes are
produced without touching the nose. -/
def classifyCalibratedNose (noseOpt : Option Landmark) (currentY timestamp : ℚ)
    (st2 : GestureState) : Option (Gesture × GestureState) :=
  let jumpDiff := st2.baselineHipY - currentY
  let timeSinceLastGesture := timestamp - st2.lastGestureTime
  if jumpDiff > JUMP_THRESHOLD_Y ∧
      timestamp - st2.lastJumpTime > JUMP_COOLDOWN ∧
      timeSinceLastGesture > LANE_CHANGE_COOLDOWN then
    some (Gesture.JUMP, { st2 with lastJumpTime := timestamp })
  else if timeSinceLastGesture < LANE_CHANGE_COOLDOWN then
    some (Gesture.NONE, st2)
  else
    match noseOpt with
    | none => none
    | some nose =>
      if nose.x > LEAN_THRESHOLD_LEFT then
        some (Gesture.LEFT, { st2 with lastGestureTime := timestamp })
      else if nose.x < LEAN_THRESHOLD_RIGHT then
        some (Gesture.RIGHT, { st2 with lastGestureTime := timestamp })
      else
        some (Gesture.NONE, st2)

/-- detectGesture's body once the four torso landmarks have been read.
The torso landmarks are dereferenced unconditionally when computing
`currentY` (src/utils/gameUtils.ts line 128), so they are required up
front; the nose is kept optional because the source only dereferences it
in the lean branch.  In particular the calibration branch pushes the
torso Y and returns NONE even when the nose is absent. -/
def detectGestureNose (noseOpt : Option Landmark) (lh rh ls rs : Landmark)
    (timestamp : ℚ) (st : GestureState) : Option (Gesture × GestureState) :=
  let currentY := torsoY lh rh ls rs
  if st.hipYHistory.length < 30 then
    let hist := st.hipYHistory ++ [currentY]
    some (Gesture.NONE,
      { st with hipYHistory := hist, baselineHipY := hist.sum / (hist.length : ℚ) })
  else
    classifyCalibratedNose noseOpt currentY timestamp (driftBaseline st currentY)

/-- detectGesture from src/utils/gameUtils.ts.  The landmark list is a JS
array lookup (`landmarks[i]` yields `undefined` when absent), modelled as
`Nat → Option Landmark`; a wholly absent list (`!landmarks`) returns
NONE.  Reading `.y` on a missing torso landmark — which line 128 does
unconditionally — throws a TypeError, modelled as result `none`; the
nose, assigned but not dereferenced at line 120, only throws if the lean
test is reached (see detectGestureNose / classifyCalibratedNose). -/
def detectGesture (landmarks : Option (Nat → Option Landmark)) (timestamp : ℚ)
    (st : GestureState) : Option (Gesture × GestureState) :=
  match landmarks with
  | none => some (Gesture.NONE, st)
  | some lm =>
    match lm 23, lm 24, lm 11, lm 12 with
    | some lh, some rh, some ls, some rs =>
        detectGestureNose (lm 0) lh rh ls rs timestamp st
    | _, _, _, _ => none

/-- A well-formed pose sample: the five required landmarks plus the
timestamp at which it is classified. -/
structure Sample where
  nose : Landmark
  leftHip : Landmark
  rightHip : Landmark
  leftShoulder : Landmark
  rightShoulder : Landmark
  timestamp : ℚ
deriving DecidableEq, Repr

/-- Classify one well-formed sample: detectGesture on a complete landmark
list, which never throws (detectGestureNose_some). -/
def stepSample (st : GestureState) (s : Sample) : Gesture × GestureState :=
  detectGestureCore s.nose s.leftHip s.rightHip s.leftShoulder s.rightShoulder
    s.timestamp st

/-- Feed a list of well-formed samples through the classifier in order,
pairing each emitted gesture with its sample's timestamp. -/
def runSamples (st : GestureState) (ss : List Sample) :
    List (Gesture × ℚ) × GestureState :=
  match ss with
  | [] => ([], st)
  | s :: rest =>
    let g := stepSample st s
    let r := runSamples g.2 rest
    ((g.1, s.timestamp) :: r.1, r.2)

/-- Timestamps at which a JUMP was emitted in a classifier trace. -/
def jumpTimes (out : List (Gesture × ℚ)) : List ℚ :=
  (out.filter (fun p => decide (p.1 = Gesture.JUMP))).map Prod.snd

/-- A posture replayed at a list of timestamps: the samples share identical
landmark coordinates. -/
def postureSamples (nose lh rh ls rs : Landmark) (tss : List ℚ) : List Sample :=
  tss.map (fun t =>
    { nose := nose, leftHip := lh, rightHip := rh, leftShoulder := ls,
      rightShoulder := rs, timestamp := t })

/-! ## Game engine data model (src/types.ts, src/components/GameEngine.tsx) -/

/-- Player3D from src/types.ts.  `lane` is 0 | 1 | 2 (the code clamps it to
that range); `yPosition` is 0 on the ground. -/
structure Player where
  lane : ℕ
  isJumping : Bool
  jumpStartTime : ℚ
  yPosition : ℚ
deriving DecidableEq, Repr

inductive ObstacleType where
  | lava_block
  | tall_lava
deriving DecidableEq, Repr

/-- Obstacle3D from src/types.ts.  The id is the value of the
`Math.random()` draw whose decimal string the source stores
(`Math.random().toString()`, injective on distinct numbers). -/
structure Obstacle where
  id : ℚ
  lane : ℕ
  z : ℚ
  type : ObstacleType
  passed : Bool
deriving DecidableEq, Repr

inductive DecorationType where
  | tree
  | grass
  | flower
deriving DecidableEq, Repr

/-- Decoration3D from src/types.ts. -/
structure Decoration where
  id : ℚ
  x : ℚ
  z : ℚ
  type : DecorationType
  rotation : ℚ
deriving DecidableEq, Repr

/-- The gameplay state accessible to updateGameLogic: the engine refs
(playerStateRef, obstaclesRef, decorationsRef, scoreRef, speedRef,
lastHitTimeRef) together with the lives / gameOver fields of the React
GameState that the collision handler mutates through setGameState.
`rngIdx` is the position in the ambient Math.random draw stream.
The spawn-timer refs are not modelled: spawning is represented as
nondeterministic session steps (see SessionStep). -/
structure EngineState where
  player : Player
  obstacles : List Obstacle
  decorations : List Decoration
  score : ℕ
  speed : ℚ
  lives : ℤ
  gameOver : Bool
  lastHitTime : ℚ
  rngIdx : ℕ
deriving DecidableEq, Repr

/-- The difficulty formula at the top of updateGameLogic:
`speedRef.current = Math.min(MAX_SPEED, START_SPEED + score / 50)`. -/
def speedFor (score : ℕ) : ℚ :=
  min MAX_SPEED (START_SPEED + (score : ℚ) / 50)

/-- Gesture application from the input-handling effect in GameEngine.tsx
(lines 377-386): JUMP starts a jump unless one is in flight; LEFT/RIGHT
move the lane by one, clamped to [0,2]. -/
def applyGesture (p : Player) (g : Gesture) (now : ℚ) : Player :=
  match g with
  | Gesture.JUMP =>
      if p.isJumping then p
      else { p with isJumping := true, jumpStartTime := now }
  | Gesture.LEFT =>
      if 0 < p.lane then { p with lane := p.lane - 1 } else p
  | Gesture.RIGHT =>
      if p.lane < 2 then { p with lane := p.lane + 1 } else p
  | Gesture.NONE => p

/-- Jump physics from updateGameLogic (lines 764-773): while jumping,
height follows the parabola `JUMP_HEIGHT * 4 * t * (1 - t)` over the jump
duration, then the jump ends with height 0. -/
def advancePlayer (p : Player) (time : ℚ) : Player :=
  if p.isJumping then
    let jumpProgress := (time - p.jumpStartTime) / 1000
    if jumpProgress < JUMP_DURATION then
      let t := jumpProgress / JUMP_DURATION
      { p with yPosition := JUMP_HEIGHT * 4 * t * (1 - t) }
    else
      { p with isJumping := false, yPosition := 0 }
  else p

/-- Advance one obstacle along the track: `obs.z += speed * dt`. -/
def advanceObs (speed dt : ℚ) (o : Obstacle) : Obstacle :=
  { o with z := o.z + speed * dt }

/-- Accumulator threaded through the obstacle forEach of updateGameLogic:
score and damage state plus the obstacles that survive the tick (the
source collects `obstaclesToRemove` and filters afterwards; keeping the
survivors directly is the same set). -/
structure TickAcc where
  score : ℕ
  lives : ℤ
  gameOver : Bool
  lastHitTime : ℚ
  kept : List Obstacle
deriving DecidableEq, Repr

/-- The collision test of updateGameLogic (lines 856-859) against a moved
obstacle: the obstacle is in the hit window `-1 < z < 1`, in the player's
lane, and the player's height is below the 1.1 jump-clearance threshold. -/
def collides (o : Obstacle) (playerLane : ℕ) (playerY : ℚ) : Prop :=
  o.z > -1 ∧ o.z < 1 ∧ o.lane = playerLane ∧ playerY < 11/10

instance (o : Obstacle) (l : ℕ) (y : ℚ) : Decidable (collides o l y) := by
  unfold collides
  infer_instance

/-- Collision section of the obstacle forEach (updateGameLogic lines
855-877): on a qualifying collision with no active invincibility window,
`newLives = lives - 1` (mirroring the functional setGameState update;
when that is ≤ 0 lives is pinned at 0 and gameOver turns on) and the
window restarts at the current time.  The source reads
`performance.now()` for the invincibility comparison while the hit window
uses the tick timestamp; both are the same instant of the same frame and
are modelled by the single `time`. -/
def collideStep (time : ℚ) (playerLane : ℕ) (playerY : ℚ)
    (acc : TickAcc) (obs : Obstacle) : TickAcc :=
  if collides obs playerLane playerY then
    if time - acc.lastHitTime > INVINCIBILITY_DURATION then
      if acc.lives - 1 ≤ 0 then
        { acc with lastHitTime := time, lives := 0, gameOver := true }
      else
        { acc with lastHitTime := time, lives := acc.lives - 1 }
    else acc
  else acc

/-- Scoring and culling section of the obstacle forEach (updateGameLogic
lines 879-885): an obstacle past z = 5 that is not yet marked passed
awards +10 and is marked; any obstacle past z = 5 is queued for removal
(equivalently: not kept), all others survive. -/
def scoreStep (acc : TickAcc) (obs : Obstacle) : TickAcc :=
  if obs.z > 5 then
    if obs.passed = false then { acc with score := acc.score + 10 }
    else acc
  else
    { acc with kept := acc.kept ++ [obs] }

/-- Body of the obstacle forEach in updateGameLogic (lines 847-886): move
the obstacle (`obs.z += speed * dt`), run the collision section, then the
scoring/culling section. -/
def processObstacle (speed dt time : ℚ) (playerLane : ℕ) (playerY : ℚ)
    (acc : TickAcc) (o : Obstacle) : TickAcc :=
  scoreStep (collideStep time playerLane playerY acc (advanceObs speed dt o))
    (advanceObs speed dt o)

/-- Decoration advance and cull from updateGameLogic (lines 817-836):
`dec.z += speed * dt`, then decorations past `z > 20` are removed. -/
def advanceDecos (speed dt : ℚ) (ds : List Decoration) : List Decoration :=
  (ds.map (fun d => { d with z := d.z + speed * dt })).filter
    (fun d => decide (d.z ≤ 20))

/-- One invocation of updateGameLogic, restricted to the gameplay state
(rendering, lantern animation and limb animation omitted).  Order follows
the source: recompute speed from the current score, advance the player's
jump, advance and cull decorations, then run the obstacle loop
(advance, collide, score, cull). -/
def tick (s : EngineState) (dt time : ℚ) : EngineState :=
  let speed := speedFor s.score
  let player := advancePlayer s.player time
  let decorations := advanceDecos speed dt s.decorations
  let acc := s.obstacles.foldl
    (processObstacle speed dt time player.lane player.yPosition)
    { score := s.score, lives := s.lives, gameOver := s.gameOver,
      lastHitTime := s.lastHitTime, kept := [] }
  { s with
    player := player, decorations := decorations, speed := speed,
    obstacles := acc.kept, score := acc.score, lives := acc.lives,
    gameOver := acc.gameOver, lastHitTime := acc.lastHitTime }

/-- One animation frame at the session level: the animation loop only runs
updateGameLogic while the session is live (the effect at GameEngine.tsx
line 281 starts the loop only when `isPlaying && !gameOver`, and tears it
down when gameOver flips; a paused frame renders without game logic and is
not modelled). -/
def frame (s : EngineState) (dt time : ℚ) : EngineState :=
  if s.gameOver then s else tick s dt time

/-- Obstacle construction in spawnObstacle (GameEngine.tsx lines 700-712):
fresh random id, random lane, fixed type, not yet passed. -/
def mkObstacle (id : ℚ) (lane : ℕ) (z : ℚ) : Obstacle :=
  { id := id, lane := lane, z := z, type := ObstacleType.lava_block,
    passed := false }

/-- The ids of every live entity (obstacles then decorations). -/
def liveIds (s : EngineState) : List ℚ :=
  s.obstacles.map Obstacle.id ++ s.decorations.map Decoration.id

/-- Session-level transitions, parameterized by the ambient Math.random
stream `rng`.  spawnObstacle consumes two draws (lane, then id) and
appends one obstacle at the spawn depth; spawnDecoration's id is the
`(j+1)`-th draw of the spawn (the z jitter at the call site and the
isLeft / offset / type draws precede it; the rotation, mesh and scale
draws follow, `k` of them in total), with the geometric data `x`, `z`,
`ty`, `rot` abstracted as parameters; spawning happens only inside a live
tick.  A frame step runs the guarded game loop. -/
inductive SessionStep (rng : ℕ → ℚ) : EngineState → EngineState → Prop
  | spawnObstacle (s : EngineState) (h : s.gameOver = false) :
      SessionStep rng s
        { s with
          obstacles := s.obstacles ++
            [mkObstacle (rng (s.rngIdx + 1))
              (Int.toNat ⌊rng s.rngIdx * 3⌋) SPAWN_DISTANCE],
          rngIdx := s.rngIdx + 2 }
  | spawnDecoration (s : EngineState) (j k : ℕ) (x z rot : ℚ)
      (ty : DecorationType) (h : s.gameOver = false) :
      SessionStep rng s
        { s with
          decorations := s.decorations ++
            [{ id := rng (s.rngIdx + j), x := x, z := z, type := ty,
               rotation := rot }],
          rngIdx := s.rngIdx + j + 1 + k }
  | frameStep (s : EngineState) (dt time : ℚ) :
      SessionStep rng s (frame s dt time)

/-- Reachability from a state through session steps. -/
def Reachable (rng : ℕ → ℚ) : EngineState → EngineState → Prop :=
  Relation.ReflTransGen (SessionStep rng)

/-- The state installed by the initialization effect (GameEngine.tsx lines
262-275) together with the initial React GameState (App.tsx: 3 lives, no
game over). -/
def initState : EngineState :=
  { player := { lane := 1, isJumping := false, jumpStartTime := 0, yPosition := 0 },
    obstacles := [], decorations := [], score := 0, speed := START_SPEED,
    lives := 3, gameOver := false, lastHitTime := 0, rngIdx := 0 }

/-! ## Derived gameplay definitions and concrete scenario data -/

/-- The crossing test used for scoring and culling: the moved obstacle has
passed z = 5. -/
def crossed (speed dt : ℚ) (o : Obstacle) : Bool :=
  decide (o.z + speed * dt > 5)

/-- Concrete obstacle used by the C2 witness: in lane 1 at z = 4,
unmarked. -/
def c2Obstacle : Obstacle :=
  { id := 0, lane := 1, z := 4, type := ObstacleType.lava_block, passed := false }

/-- Concrete pre-state used by the C2 witness. -/
def c2State : EngineState :=
  { player := { lane := 0, isJumping := false, jumpStartTime := 0, yPosition := 0 },
    obstacles := [c2Obstacle], decorations := [], score := 0, speed := 15,
    lives := 3, gameOver := false, lastHitTime := 0, rngIdx := 0 }

/-- Iterate frames over a list of (dt, time) pairs. -/
def runFrames (s : EngineState) (fs : List (ℚ × ℚ)) : EngineState :=
  fs.foldl (fun st p => frame st p.1 p.2) s

/-- Concrete terminal state used by the C3 witness. -/
def c3State : EngineState :=
  { player := { lane := 1, isJumping := false, jumpStartTime := 0, yPosition := 0 },
    obstacles := [], decorations := [], score := 120, speed := 15, lives := 0,
    gameOver := true, lastHitTime := 0, rngIdx := 0 }

/-- Fold a gesture/time trace through the input handler. -/
def applyGestures (p : Player) (gs : List (Gesture × ℚ)) : Player :=
  gs.foldl (fun q gt => applyGesture q gt.1 gt.2) p

/-- Neutral nose (x = 0.5, inside the lean dead zone). -/
def noseNeutral : Landmark := { x := 1/2, y := 3/10 }

/-- Leaning nose (x = 0.7 > LEAN_THRESHOLD_LEFT). -/
def noseLean : Landmark := { x := 7/10, y := 3/10 }

/-- Standing torso landmark: all four torso landmarks at y = 0.5. -/
def torsoStand : Landmark := { x := 1/2, y := 1/2 }

/-- Raised torso landmark: y = 0.4, which is 0.1 above the 0.5 baseline,
beyond the 0.05 jump threshold. -/
def torsoUp : Landmark := { x := 1/2, y := 2/5 }

/-- Thirty neutral standing samples at time 0 (a calibration phase). -/
def calibSamples : List Sample :=
  postureSamples noseNeutral torsoStand torsoStand torsoStand torsoStand
    (List.replicate 30 0)

/-- The classifier state after calibrating on the standing posture. -/
def stCalibrated : GestureState :=
  { hipYHistory := List.replicate 30 (1/2), baselineHipY := 1/2,
    lastJumpTime := 0, lastGestureTime := 0 }

/-- A jump-eligible sample (torso raised by 0.1, nose neutral) at time t. -/
def jumpSample (t : ℚ) : Sample :=
  { nose := noseNeutral, leftHip := torsoUp, rightHip := torsoUp,
    leftShoulder := torsoUp, rightShoulder := torsoUp, timestamp := t }

/-- A lean-left sample (nose at 0.7, torso standing) at time t. -/
def leanSample (t : ℚ) : Sample :=
  { nose := noseLean, leftHip := torsoStand, rightHip := torsoStand,
    leftShoulder := torsoStand, rightShoulder := torsoStand, timestamp := t }

/-- The landmark at (0.5, 0.5) used to populate malformed landmark
lists. -/
def landmarkHalf : Landmark := { x := 1/2, y := 1/2 }

/-- A landmark list that is present but has no entry at index 23 (left
hip); all other indices are populated. -/
def missingHipLandmarks : Nat → Option Landmark :=
  fun i => if i = 23 then none else some landmarkHalf

/-- A landmark list that is present but has no entry at index 0 (nose);
all other indices — in particular the four torso landmarks — are
populated. -/
def missingNoseLandmarks : Nat → Option Landmark :=
  fun i => if i = 0 then none else some landmarkHalf

/-- The freshness invariant carried through a session: the ids of the live
obstacles and decorations are the values of the ambient random stream at
pairwise distinct indices, all below the stream position. -/
def IdsFresh (rng : ℕ → ℚ) (s : EngineState) : Prop :=
  ∃ oi di : List ℕ, (oi ++ di).Nodup ∧ (∀ i ∈ oi ++ di, i < s.rngIdx) ∧
    s.obstacles.map Obstacle.id = oi.map rng ∧
    s.decorations.map Decoration.id = di.map rng

/-- A Math.random stream that returns 0.5 twice in a row (possible for a
PRNG with no uniqueness guarantee). -/
def constHalfRng : ℕ → ℚ := fun _ => 1/2

/-- State after the first spawnObstacle under constHalfRng. -/
def c9State1 : EngineState :=
  { initState with
    obstacles := initState.obstacles ++
      [mkObstacle (constHalfRng (initState.rngIdx + 1))
        (Int.toNat ⌊constHalfRng initState.rngIdx * 3⌋) SPAWN_DISTANCE],
    rngIdx := initState.rngIdx + 2 }

/-- State after one 0.1 s frame. -/
def c9State2 : EngineState := frame c9State1 (1/10) 1000

/-- State after the second spawnObstacle. -/
def c9State3 : EngineState :=
  { c9State2 with
    obstacles := c9State2.obstacles ++
      [mkObstacle (constHalfRng (c9State2.rngIdx + 1))
        (Int.toNat ⌊constHalfRng c9State2.rngIdx * 3⌋) SPAWN_DISTANCE],
    rngIdx := c9State2.rngIdx + 2 }

/-! ## Per-step lemmas about the obstacle loop -/

theorem advanceObs_z (speed dt : ℚ) (o : Obstacle) :
    (advanceObs speed dt o).z = o.z + speed * dt := rfl

theorem advanceObs_passed (speed dt : ℚ) (o : Obstacle) :
    (advanceObs speed dt o).passed = o.passed := rfl

theorem advanceObs_id (speed dt : ℚ) (o : Obstacle) :
    (advanceObs speed dt o).id = o.id := rfl

theorem collideStep_score (time : ℚ) (pl : ℕ) (py : ℚ) (acc : TickAcc)
    (obs : Obstacle) : (collideStep time pl py acc obs).score = acc.score := by
  unfold collideStep
  split_ifs <;> rfl

theorem collideStep_kept (time : ℚ) (pl : ℕ) (py : ℚ) (acc : TickAcc)
    (obs : Obstacle) : (collideStep time pl py acc obs).kept = acc.kept := by
  unfold collideStep
  split_ifs <;> rfl

theorem scoreStep_lives (acc : TickAcc) (obs : Obstacle) :
    (scoreStep acc obs).lives = acc.lives := by
  unfold scoreStep
  split_ifs <;> rfl

theorem scoreStep_lastHitTime (acc : TickAcc) (obs : Obstacle) :
    (scoreStep acc obs).lastHitTime = acc.lastHitTime := by
  unfold scoreStep
  split_ifs <;> rfl

theorem scoreStep_gameOver (acc : TickAcc) (obs : Obstacle) :
    (scoreStep acc obs).gameOver = acc.gameOver := by
  unfold scoreStep
  split_ifs <;> rfl

theorem crossed_iff (speed dt : ℚ) (o : Obstacle) :
    crossed speed dt o = true ↔ (advanceObs speed dt o).z > 5 := by
  simp [crossed, advanceObs_z]

/-- Score effect of one obstacle step: +10 exactly when the moved obstacle
crossed z = 5 and had not been marked passed, independent of the collision
outcome. -/
theorem processObstacle_score (speed dt time : ℚ) (pl : ℕ) (py : ℚ)
    (acc : TickAcc) (o : Obstacle) :
    (processObstacle speed dt time pl py acc o).score =
      if crossed speed dt o ∧ o.passed = false then acc.score + 10
      else acc.score := by
  unfold processObstacle scoreStep
  rw [advanceObs_passed]
  by_cases h1 : (advanceObs speed dt o).z > 5
  · have h1c : crossed speed dt o = true := (crossed_iff speed dt o).mpr h1
    rw [if_pos h1]
    by_cases h2 : o.passed = false
    · rw [if_pos h2, if_pos ⟨h1c, h2⟩]
      simp [collideStep_score]
    · rw [if_neg h2, if_neg (fun hh => h2 hh.2)]
      exact collideStep_score time pl py acc (advanceObs speed dt o)
  · have h1c : ¬ crossed speed dt o = true :=
      fun hh => h1 ((crossed_iff speed dt o).mp hh)
    rw [if_neg h1, if_neg (fun hh => h1c hh.1)]
    simp [collideStep_score]

/-- Survivor effect of one obstacle step: the moved obstacle is kept
exactly when it has not crossed z = 5. -/
theorem processObstacle_kept (speed dt time : ℚ) (pl : ℕ) (py : ℚ)
    (acc : TickAcc) (o : Obstacle) :
    (processObstacle speed dt time pl py acc o).kept =
      acc.kept ++ if crossed speed dt o then [] else [advanceObs speed dt o] := by
  unfold processObstacle scoreStep
  rw [advanceObs_passed]
  by_cases h1 : (advanceObs speed dt o).z > 5
  · have h1c : crossed speed dt o = true := (crossed_iff speed dt o).mpr h1
    rw [if_pos h1, if_pos h1c]
    by_cases h2 : o.passed = false
    · rw [if_pos h2]
      simp [collideStep_kept]
    · rw [if_neg h2]
      simp [collideStep_kept]
  · have h1c : ¬ crossed speed dt o = true :=
      fun hh => h1 ((crossed_iff speed dt o).mp hh)
    rw [if_neg h1, if_neg h1c]
    simp [collideStep_kept]

/-- One obstacle step never unsets gameOver, and whenever it leaves lives
at or below 0 it has gameOver on, provided that held before the step. -/
theorem processObstacle_terminal (speed dt time : ℚ) (pl : ℕ) (py : ℚ)
    (acc : TickAcc) (o : Obstacle)
    (h : acc.lives ≤ 0 → acc.gameOver = true) :
    (processObstacle speed dt time pl py acc o).lives ≤ 0 →
      (processObstacle speed dt time pl py acc o).gameOver = true := by
  unfold processObstacle
  rw [scoreStep_lives, scoreStep_gameOver]
  unfold collideStep
  split_ifs <;> simp_all

/-- Fold version of processObstacle_score: the obstacle loop adds 10 per
moved obstacle that crossed z = 5 unmarked. -/
theorem foldl_process_score (speed dt time : ℚ) (pl : ℕ) (py : ℚ)
    (l : List Obstacle) (acc : TickAcc) :
    (l.foldl (processObstacle speed dt time pl py) acc).score =
      acc.score + 10 * l.countP (fun o => crossed speed dt o && !o.passed) := by
  induction l generalizing acc with
  | nil => simp
  | cons o rest ih =>
      rw [List.foldl_cons, ih, List.countP_cons, processObstacle_score]
      by_cases h1 : crossed speed dt o = true
      · by_cases h2 : o.passed = false
        · rw [if_pos ⟨h1, h2⟩]
          simp only [h1, h2, Bool.not_false, Bool.and_true, if_pos]
          omega
        · have hp : o.passed = true := by simpa using h2
          rw [if_neg (fun hh => h2 hh.2)]
          simp [h1, hp]
      · have h1f : crossed speed dt o = false := by simpa using h1
        rw [if_neg (fun hh => h1 hh.1)]
        simp [h1f]

/-- Fold version of processObstacle_kept: the survivors of the obstacle
loop are exactly the moved obstacles that have not crossed z = 5. -/
theorem foldl_process_kept (speed dt time : ℚ) (pl : ℕ) (py : ℚ)
    (l : List Obstacle) (acc : TickAcc) :
    (l.foldl (processObstacle speed dt time pl py) acc).kept =
      acc.kept ++
        (l.map (advanceObs speed dt)).filter (fun o => decide (o.z ≤ 5)) := by
  induction l generalizing acc with
  | nil => simp
  | cons o rest ih =>
      rw [List.foldl_cons, ih, List.map_cons, List.filter_cons, processObstacle_kept]
      by_cases hc : crossed speed dt o = true
      · have hz : ¬ ((advanceObs speed dt o).z ≤ 5) :=
          not_le.mpr ((crossed_iff speed dt o).mp hc)
        simp [hc, hz, List.append_assoc]
      · have hz : (advanceObs speed dt o).z ≤ 5 := by
          by_contra hzz
          exact hc ((crossed_iff speed dt o).mpr (not_le.mp hzz))
        have hcf : crossed speed dt o = false := by simpa using hc
        simp [hcf, hz, List.append_assoc]

/-- Fold version of processObstacle_terminal. -/
theorem foldl_process_terminal (speed dt time : ℚ) (pl : ℕ) (py : ℚ)
    (l : List Obstacle) (acc : TickAcc)
    (h : acc.lives ≤ 0 → acc.gameOver = true) :
    (l.foldl (processObstacle speed dt time pl py) acc).lives ≤ 0 →
      (l.foldl (processObstacle speed dt time pl py) acc).gameOver = true := by
  induction l generalizing acc with
  | nil => simpa using h
  | cons o rest ih =>
      rw [List.foldl_cons]
      exact ih _ (processObstacle_terminal speed dt time pl py acc o h)

/-! ## Claim C1: collision detection and invincibility -/

/-- Claim C1: within a tick, a collision against an obstacle is detected
iff the moved obstacle's lane equals the player's lane, the player's
height is < 1.1, and the moved z satisfies -1 < z < 1 (the `collides`
predicate).  The three conjuncts are an exhaustive case analysis of the
per-obstacle collision handler: (1) without a qualifying collision the
damage state is untouched; (2) a qualifying collision while the
invincibility window is still active (time within INVINCIBILITY_DURATION
of the last hit) leaves lives and the window unchanged; (3) a qualifying
collision with no active window decrements lives by exactly 1 and starts
a new invincibility window at the current time — after which, by (2), any
further qualifying collision before that window expires leaves lives
unchanged. -/
theorem C1_collision_invincibility (speed dt time : ℚ) (playerLane : ℕ)
    (playerY : ℚ) (acc : TickAcc) (o : Obstacle) :
    (¬ collides (advanceObs speed dt o) playerLane playerY →
      (processObstacle speed dt time playerLane playerY acc o).lives = acc.lives ∧
      (processObstacle speed dt time playerLane playerY acc o).lastHitTime =
        acc.lastHitTime) ∧
    (collides (advanceObs speed dt o) playerLane playerY →
      time - acc.lastHitTime ≤ INVINCIBILITY_DURATION →
      (processObstacle speed dt time playerLane playerY acc o).lives = acc.lives ∧
      (processObstacle speed dt time playerLane playerY acc o).lastHitTime =
        acc.lastHitTime) ∧
    (collides (advanceObs speed dt o) playerLane playerY →
      INVINCIBILITY_DURATION < time - acc.lastHitTime →
      1 ≤ acc.lives →
      (processObstacle speed dt time playerLane playerY acc o).lives = acc.lives - 1 ∧
      (processObstacle speed dt time playerLane playerY acc o).lastHitTime = time) := by
  refine ⟨?_, ?_, ?_⟩
  · intro hnc
    unfold processObstacle
    rw [scoreStep_lives, scoreStep_lastHitTime]
    unfold collideStep
    rw [if_neg hnc]
    exact ⟨rfl, rfl⟩
  · intro hc hle
    unfold processObstacle
    rw [scoreStep_lives, scoreStep_lastHitTime]
    unfold collideStep
    rw [if_pos hc, if_neg (not_lt.mpr hle)]
    exact ⟨rfl, rfl⟩
  · intro hc hfresh hlives
    unfold processObstacle
    rw [scoreStep_lives, scoreStep_lastHitTime]
    unfold collideStep
    rw [if_pos hc, if_pos hfresh]
    by_cases hz : acc.lives - 1 ≤ 0
    · rw [if_pos hz]
      refine ⟨?_, rfl⟩
      show (0 : ℤ) = acc.lives - 1
      omega
    · rw [if_neg hz]
      exact ⟨rfl, rfl⟩

/-- Witness for C1 at a concrete input: an obstacle sitting at z = 0 in the
player's lane while the player is grounded, with no invincibility window
active (last hit at 0, now 5000), drops lives from 3 to 2 and restarts the
window at 5000. -/
theorem C1_collision_invincibility_witness :
    (processObstacle 15 0 5000 1 0
      { score := 0, lives := 3, gameOver := false, lastHitTime := 0, kept := [] }
      { id := 0, lane := 1, z := 0, type := ObstacleType.lava_block,
        passed := false }).lives = 2 ∧
    (processObstacle 15 0 5000 1 0
      { score := 0, lives := 3, gameOver := false, lastHitTime := 0, kept := [] }
      { id := 0, lane := 1, z := 0, type := ObstacleType.lava_block,
        passed := false }).lastHitTime = 5000 := by
  have h := (C1_collision_invincibility 15 0 5000 1 0
      { score := 0, lives := 3, gameOver := false, lastHitTime := 0, kept := [] }
      { id := 0, lane := 1, z := 0, type := ObstacleType.lava_block,
        passed := false }).2.2
      (by norm_num [collides, advanceObs])
      (by norm_num [INVINCIBILITY_DURATION])
      (by norm_num)
  refine ⟨?_, h.2⟩
  rw [h.1]
  norm_num

/-! ## Projections of the tick onto the obstacle fold -/

theorem tick_score_def (s : EngineState) (dt time : ℚ) :
    (tick s dt time).score =
      (s.obstacles.foldl
        (processObstacle (speedFor s.score) dt time
          (advancePlayer s.player time).lane (advancePlayer s.player time).yPosition)
        { score := s.score, lives := s.lives, gameOver := s.gameOver,
          lastHitTime := s.lastHitTime, kept := [] }).score := rfl

theorem tick_obstacles_def (s : EngineState) (dt time : ℚ) :
    (tick s dt time).obstacles =
      (s.obstacles.foldl
        (processObstacle (speedFor s.score) dt time
          (advancePlayer s.player time).lane (advancePlayer s.player time).yPosition)
        { score := s.score, lives := s.lives, gameOver := s.gameOver,
          lastHitTime := s.lastHitTime, kept := [] }).kept := rfl

theorem tick_lives_def (s : EngineState) (dt time : ℚ) :
    (tick s dt time).lives =
      (s.obstacles.foldl
        (processObstacle (speedFor s.score) dt time
          (advancePlayer s.player time).lane (advancePlayer s.player time).yPosition)
        { score := s.score, lives := s.lives, gameOver := s.gameOver,
          lastHitTime := s.lastHitTime, kept := [] }).lives := rfl

theorem tick_gameOver_def (s : EngineState) (dt time : ℚ) :
    (tick s dt time).gameOver =
      (s.obstacles.foldl
        (processObstacle (speedFor s.score) dt time
          (advancePlayer s.player time).lane (advancePlayer s.player time).yPosition)
        { score := s.score, lives := s.lives, gameOver := s.gameOver,
          lastHitTime := s.lastHitTime, kept := [] }).gameOver := rfl

/-! ## Claim C2: passing an obstacle scores +10 exactly once -/

/-- Claim C2: on any tick, every live obstacle whose moved z exceeds 5
contributes exactly +10 to the score — regardless of whether it ever
collided (the collision section never touches the score) — and is removed
from the live collection; the survivors are exactly the moved obstacles
with z ≤ 5, all still unmarked.  Because every live obstacle is unmarked
(`passed = false`, an invariant this theorem re-establishes and which
holds from spawn on, since spawnObstacle creates obstacles with
`passed := false`), the +10 happens exactly once in the obstacle's
lifetime: the tick that flips `passed` to true also removes it. -/
theorem C2_pass_scores_once (s : EngineState) (dt time : ℚ)
    (h : ∀ o ∈ s.obstacles, o.passed = false) :
    (tick s dt time).score =
      s.score + 10 * s.obstacles.countP (fun o => crossed (speedFor s.score) dt o) ∧
    (tick s dt time).obstacles =
      (s.obstacles.map (advanceObs (speedFor s.score) dt)).filter
        (fun o => decide (o.z ≤ 5)) ∧
    (∀ o ∈ (tick s dt time).obstacles, o.passed = false) := by
  have hscore := foldl_process_score (speedFor s.score) dt time
    (advancePlayer s.player time).lane (advancePlayer s.player time).yPosition
    s.obstacles
    { score := s.score, lives := s.lives, gameOver := s.gameOver,
      lastHitTime := s.lastHitTime, kept := [] }
  have hkept := foldl_process_kept (speedFor s.score) dt time
    (advancePlayer s.player time).lane (advancePlayer s.player time).yPosition
    s.obstacles
    { score := s.score, lives := s.lives, gameOver := s.gameOver,
      lastHitTime := s.lastHitTime, kept := [] }
  have hcount : s.obstacles.countP (fun o => crossed (speedFor s.score) dt o && !o.passed) =
      s.obstacles.countP (fun o => crossed (speedFor s.score) dt o) := by
    apply List.countP_congr
    intro o ho
    simp [h o ho]
  have hobs : (tick s dt time).obstacles =
      (s.obstacles.map (advanceObs (speedFor s.score) dt)).filter
        (fun o => decide (o.z ≤ 5)) := by
    rw [tick_obstacles_def, hkept]
    simp
  refine ⟨?_, hobs, ?_⟩
  · rw [tick_score_def, hscore, hcount]
  · intro o ho
    rw [hobs] at ho
    have ho3 := List.mem_of_mem_filter ho
    obtain ⟨o0, ho0, rfl⟩ := List.mem_map.mp ho3
    rw [advanceObs_passed]
    exact h o0 ho0

/-- Witness for C2 at a concrete input: one obstacle at z = 4 moving by
15 · 0.1 = 1.5 crosses 5, yielding +10 and an empty live collection. -/
theorem C2_pass_scores_once_witness :
    (tick c2State (1/10) 1000).score = 10 ∧
    (tick c2State (1/10) 1000).obstacles = [] := by
  have h := C2_pass_scores_once c2State (1/10) 1000
    (by
      intro o ho
      simp only [c2State, List.mem_singleton] at ho
      rw [ho]
      rfl)
  have hcross : crossed (speedFor c2State.score) (1/10) c2Obstacle = true := by
    simp only [crossed, c2State, c2Obstacle, speedFor, START_SPEED, MAX_SPEED,
      min_def, decide_eq_true_eq]
    norm_num
  refine ⟨?_, ?_⟩
  · rw [h.1]
    show 0 + 10 * List.countP _ [c2Obstacle] = 10
    rw [List.countP_singleton]
    simp only [hcross]
    norm_num
  · rw [h.2.1]
    have hz : ¬ ((advanceObs (speedFor c2State.score) (1/10) c2Obstacle).z ≤ 5) := by
      simp only [advanceObs_z, c2State, c2Obstacle, speedFor, START_SPEED,
        MAX_SPEED, min_def]
      norm_num
    have hzd : decide ((advanceObs (speedFor c2State.score) (1/10) c2Obstacle).z ≤ 5)
        = false := decide_eq_false hz
    show List.filter _ (List.map _ [c2Obstacle]) = []
    rw [List.map_singleton, List.filter_singleton]
    simp only [hzd]
    rfl

/-! ## Claim C3: game over is terminal -/

/-- Claim C3: whenever lives reaches 0 the state simultaneously turns on
the terminal gameOver flag (conjunct 1: a tick preserves the invariant
that non-positive lives implies gameOver — the only code path that zeroes
lives also sets gameOver), and once gameOver holds no later frame mutates
any gameplay state at all: one frame is the identity (conjunct 2), hence
any sequence of subsequent frames leaves the whole state — in particular
score and lives — unchanged until an explicit restart (conjunct 3). -/
theorem C3_game_over_terminal :
    (∀ (s : EngineState) (dt time : ℚ), (s.lives ≤ 0 → s.gameOver = true) →
      ((tick s dt time).lives ≤ 0 → (tick s dt time).gameOver = true)) ∧
    (∀ (s : EngineState) (dt time : ℚ), s.gameOver = true → frame s dt time = s) ∧
    (∀ (s : EngineState) (fs : List (ℚ × ℚ)), s.gameOver = true →
      runFrames s fs = s) := by
  have hframe : ∀ (s : EngineState) (dt time : ℚ), s.gameOver = true →
      frame s dt time = s := by
    intro s dt time hgo
    unfold frame
    rw [if_pos hgo]
  refine ⟨?_, hframe, ?_⟩
  · intro s dt time hinv
    exact foldl_process_terminal (speedFor s.score) dt time
      (advancePlayer s.player time).lane (advancePlayer s.player time).yPosition
      s.obstacles
      { score := s.score, lives := s.lives, gameOver := s.gameOver,
        lastHitTime := s.lastHitTime, kept := [] } hinv
  · intro s fs hgo
    induction fs with
    | nil => rfl
    | cons p rest ih =>
        show runFrames (frame s p.1 p.2) rest = s
        rw [hframe s p.1 p.2 hgo]
        exact ih

/-- Witness for C3 at a concrete input: a game-over state is fixed by a
frame and by three further frames. -/
theorem C3_game_over_terminal_witness :
    frame c3State 1 2 = c3State ∧
    runFrames c3State [(1, 2), (1, 3), (1, 4)] = c3State := by
  constructor
  · exact C3_game_over_terminal.2.1 c3State 1 2 rfl
  · exact C3_game_over_terminal.2.2 c3State [(1, 2), (1, 3), (1, 4)] rfl

/-! ## Claim C4: the speed formula -/

/-- Claim C4: on every tick, speed equals
`min (MAX_SPEED) (START_SPEED + score / 50)` as a pure deterministic
function of the score held at the start of the tick (not of elapsed time:
the formula result is independent of `dt` and `time`); with
START_SPEED = 15 and MAX_SPEED = 40, score 0 gives 15, score 500 gives
25, and score 1300 gives the cap 40 rather than 41.25 (= 165/4). -/
theorem C4_speed_formula :
    (∀ (s : EngineState) (dt time : ℚ),
      (tick s dt time).speed = min MAX_SPEED (START_SPEED + (s.score : ℚ) / 50)) ∧
    speedFor 0 = 15 ∧ speedFor 500 = 25 ∧ speedFor 1300 = 40 ∧
    speedFor 1300 ≠ 165/4 := by
  refine ⟨fun s dt time => rfl, ?_, ?_, ?_, ?_⟩ <;>
    norm_num [speedFor, START_SPEED, MAX_SPEED, min_def]

/-! ## Claim C10: score is monotone within a session, hence speed is too -/

/-- Claim C10: within a session (no reset modelled here), a tick can only
increase the score — the sole scoring mutation adds 10 per passed
obstacle (conjuncts 1 and 2) and no other session step touches the score
(conjunct 6) — and since the recomputed speed
`speedFor = min MAX_SPEED (START_SPEED + score/50)` is a monotone
function of the score bounded between START_SPEED and MAX_SPEED
(conjuncts 3 and 4), the speed written by each tick never decreases from
one tick to the next, only rising from START_SPEED toward the MAX_SPEED
cap (conjunct 5). -/
theorem C10_score_speed_monotone :
    (∀ (s : EngineState) (dt time : ℚ), s.score ≤ (tick s dt time).score) ∧
    (∀ (s : EngineState) (dt time : ℚ),
      ∃ k : ℕ, (tick s dt time).score = s.score + 10 * k) ∧
    (∀ m n : ℕ, m ≤ n → speedFor m ≤ speedFor n) ∧
    (∀ n : ℕ, START_SPEED ≤ speedFor n ∧ speedFor n ≤ MAX_SPEED) ∧
    (∀ (s : EngineState) (dt time : ℚ),
      (tick s dt time).speed = speedFor s.score ∧
      speedFor s.score ≤ speedFor (tick s dt time).score) ∧
    (∀ (rng : ℕ → ℚ) (s s2 : EngineState),
      SessionStep rng s s2 → s.score ≤ s2.score) := by
  have hexists : ∀ (s : EngineState) (dt time : ℚ),
      ∃ k : ℕ, (tick s dt time).score = s.score + 10 * k := by
    intro s dt time
    refine ⟨s.obstacles.countP
      (fun o => crossed (speedFor s.score) dt o && !o.passed), ?_⟩
    rw [tick_score_def, foldl_process_score]
  have hmonotick : ∀ (s : EngineState) (dt time : ℚ),
      s.score ≤ (tick s dt time).score := by
    intro s dt time
    obtain ⟨k, hk⟩ := hexists s dt time
    omega
  have hmono : ∀ m n : ℕ, m ≤ n → speedFor m ≤ speedFor n := by
    intro m n hmn
    unfold speedFor
    have hc : (m : ℚ) ≤ (n : ℚ) := by exact_mod_cast hmn
    have : (m : ℚ) / 50 ≤ (n : ℚ) / 50 := by linarith
    exact min_le_min le_rfl (by linarith)
  refine ⟨hmonotick, hexists, hmono, ?_, ?_, ?_⟩
  · intro n
    constructor
    · unfold speedFor
      apply le_min
      · norm_num [START_SPEED, MAX_SPEED]
      · have : (0 : ℚ) ≤ (n : ℚ) / 50 := by positivity
        linarith
    · exact min_le_left MAX_SPEED _
  · intro s dt time
    exact ⟨rfl, hmono s.score (tick s dt time).score (hmonotick s dt time)⟩
  · intro rng s s2 hstep
    cases hstep with
    | spawnObstacle h => exact le_rfl
    | spawnDecoration j k x z rot ty h => exact le_rfl
    | frameStep dt time =>
        unfold frame
        split
        · exact le_rfl
        · exact hmonotick s dt time

/-- Witness for C10 at concrete inputs: speed at score 0 is at most speed
at score 500; the score of a concrete tick does not decrease; and a
concrete session frame step does not decrease the score. -/
theorem C10_score_speed_monotone_witness :
    speedFor 0 ≤ speedFor 500 ∧
    initState.score ≤ (tick initState 1 2).score ∧
    initState.score ≤ (frame initState 1 2).score := by
  refine ⟨?_, ?_, ?_⟩
  · exact C10_score_speed_monotone.2.2.1 0 500 (by norm_num)
  · exact C10_score_speed_monotone.1 initState 1 2
  · exact C10_score_speed_monotone.2.2.2.2.2 (fun _ => 0) initState
      (frame initState 1 2) (SessionStep.frameStep initState 1 2)

/-! ## Claim C5: lane clamping -/

/-- Claim C5: the lane always stays in {0,1,2}: LEFT decrements and RIGHT
increments clamped to [0,2] with no wraparound; repeated LEFT at lane 0
stays at 0 and repeated RIGHT at lane 2 stays at 2, and any gesture
sequence preserves the bound (the lower bound 0 is inherent in the ℕ
lane). -/
theorem C5_lane_clamped :
    (∀ (p : Player) (g : Gesture) (t : ℚ),
      p.lane ≤ 2 → (applyGesture p g t).lane ≤ 2) ∧
    (∀ (p : Player) (t : ℚ), p.lane = 0 → (applyGesture p Gesture.LEFT t).lane = 0) ∧
    (∀ (p : Player) (t : ℚ), p.lane = 2 → (applyGesture p Gesture.RIGHT t).lane = 2) ∧
    (∀ (p : Player) (t : ℚ), 0 < p.lane →
      (applyGesture p Gesture.LEFT t).lane = p.lane - 1) ∧
    (∀ (p : Player) (t : ℚ), p.lane < 2 →
      (applyGesture p Gesture.RIGHT t).lane = p.lane + 1) ∧
    (∀ (gs : List (Gesture × ℚ)) (p : Player),
      p.lane ≤ 2 → (applyGestures p gs).lane ≤ 2) := by
  have hstep : ∀ (p : Player) (g : Gesture) (t : ℚ),
      p.lane ≤ 2 → (applyGesture p g t).lane ≤ 2 := by
    intro p g t hp
    cases g with
    | NONE => exact hp
    | LEFT =>
        by_cases h : 0 < p.lane
        · simp only [applyGesture, if_pos h]
          omega
        · simpa only [applyGesture, if_neg h] using hp
    | RIGHT =>
        by_cases h : p.lane < 2
        · simp only [applyGesture, if_pos h]
          omega
        · simpa only [applyGesture, if_neg h] using hp
    | JUMP =>
        by_cases h : p.isJumping = true
        · simpa only [applyGesture, if_pos h] using hp
        · simpa only [applyGesture, if_neg h] using hp
  refine ⟨hstep, ?_, ?_, ?_, ?_, ?_⟩
  · intro p t hp
    have h : ¬ 0 < p.lane := by omega
    simpa only [applyGesture, if_neg h] using hp
  · intro p t hp
    have h : ¬ p.lane < 2 := by omega
    simpa only [applyGesture, if_neg h] using hp
  · intro p t hp
    simp only [applyGesture, if_pos hp]
  · intro p t hp
    simp only [applyGesture, if_pos hp]
  · intro gs
    induction gs with
    | nil => intro p hp; simpa [applyGestures] using hp
    | cons gt rest ih =>
        intro p hp
        have h2 : (applyGesture p gt.1 gt.2).lane ≤ 2 := hstep p gt.1 gt.2 hp
        simpa [applyGestures, List.foldl_cons] using ih (applyGesture p gt.1 gt.2) h2

/-- Witness for C5 at a concrete input: starting from the initial player in
lane 1, the sequence RIGHT, RIGHT, RIGHT, LEFT ends within the bound, and
a LEFT at lane 0 stays at 0. -/
theorem C5_lane_clamped_witness :
    (applyGestures { lane := 1, isJumping := false, jumpStartTime := 0, yPosition := 0 }
      [(Gesture.RIGHT, 0), (Gesture.RIGHT, 1), (Gesture.RIGHT, 2), (Gesture.LEFT, 3)]).lane ≤ 2 ∧
    (applyGesture { lane := 0, isJumping := false, jumpStartTime := 0, yPosition := 0 }
      Gesture.LEFT 5).lane = 0 := by
  constructor
  · exact C5_lane_clamped.2.2.2.2.2
      [(Gesture.RIGHT, 0), (Gesture.RIGHT, 1), (Gesture.RIGHT, 2), (Gesture.LEFT, 3)]
      { lane := 1, isJumping := false, jumpStartTime := 0, yPosition := 0 } (by decide)
  · exact C5_lane_clamped.2.1
      { lane := 0, isJumping := false, jumpStartTime := 0, yPosition := 0 } 5 rfl

/-! ## Step lemmas about the gesture classifier -/

theorem driftBaseline_lastJumpTime (st : GestureState) (y : ℚ) :
    (driftBaseline st y).lastJumpTime = st.lastJumpTime := by
  unfold driftBaseline
  split_ifs <;> rfl

theorem driftBaseline_lastGestureTime (st : GestureState) (y : ℚ) :
    (driftBaseline st y).lastGestureTime = st.lastGestureTime := by
  unfold driftBaseline
  split_ifs <;> rfl

theorem driftBaseline_hipYHistory (st : GestureState) (y : ℚ) :
    (driftBaseline st y).hipYHistory = st.hipYHistory := by
  unfold driftBaseline
  split_ifs <;> rfl

/-- When the current torso Y equals the baseline, the drift leaves the
state unchanged. -/
theorem driftBaseline_self (st : GestureState) (y : ℚ)
    (h : st.baselineHipY = y) : driftBaseline st y = st := by
  unfold driftBaseline
  rw [h, sub_self, abs_zero, if_pos (by norm_num : (0:ℚ) < 5/100)]
  have hv : y + 0 * (5/100) = y := by ring
  rw [hv, ← h]

/-- A JUMP can only be emitted when both cooldowns have elapsed, and it
restamps lastJumpTime with the sample time. -/
theorem classifyCalibrated_jump (nose : Landmark) (y ts : ℚ)
    (st2 : GestureState) (h : (classifyCalibrated nose y ts st2).1 = Gesture.JUMP) :
    JUMP_COOLDOWN < ts - st2.lastJumpTime ∧
    LANE_CHANGE_COOLDOWN < ts - st2.lastGestureTime ∧
    (classifyCalibrated nose y ts st2).2.lastJumpTime = ts := by
  simp only [classifyCalibrated] at h ⊢
  split_ifs at h ⊢ with h1 h2 h3 h4 <;> simp_all

/-- A step that does not emit JUMP leaves lastJumpTime alone. -/
theorem classifyCalibrated_nojump (nose : Landmark) (y ts : ℚ)
    (st2 : GestureState) (h : (classifyCalibrated nose y ts st2).1 ≠ Gesture.JUMP) :
    (classifyCalibrated nose y ts st2).2.lastJumpTime = st2.lastJumpTime := by
  simp only [classifyCalibrated] at h ⊢
  split_ifs at h ⊢ with h1 h2 h3 h4 <;> simp_all

/-- A lean (LEFT or RIGHT) can only be emitted once the lane-change
cooldown has elapsed, and it restamps lastGestureTime. -/
theorem classifyCalibrated_lean (nose : Landmark) (y ts : ℚ)
    (st2 : GestureState)
    (h : (classifyCalibrated nose y ts st2).1 = Gesture.LEFT ∨
      (classifyCalibrated nose y ts st2).1 = Gesture.RIGHT) :
    LANE_CHANGE_COOLDOWN ≤ ts - st2.lastGestureTime ∧
    (classifyCalibrated nose y ts st2).2.lastGestureTime = ts := by
  simp only [classifyCalibrated] at h ⊢
  split_ifs at h ⊢ with h1 h2 h3 h4 <;> simp_all

/-- A step that emits neither LEFT nor RIGHT leaves lastGestureTime
alone. -/
theorem classifyCalibrated_nolean (nose : Landmark) (y ts : ℚ)
    (st2 : GestureState)
    (h : (classifyCalibrated nose y ts st2).1 ≠ Gesture.LEFT ∧
      (classifyCalibrated nose y ts st2).1 ≠ Gesture.RIGHT) :
    (classifyCalibrated nose y ts st2).2.lastGestureTime = st2.lastGestureTime := by
  simp only [classifyCalibrated] at h ⊢
  split_ifs at h ⊢ with h1 h2 h3 h4 <;> simp_all

/-- With the baseline equal to the torso Y and the nose inside the neutral
band, a calibrated step emits NONE and changes nothing. -/
theorem classifyCalibrated_neutral (nose : Landmark) (y ts : ℚ)
    (st2 : GestureState) (hbase : st2.baselineHipY = y)
    (hxl : nose.x ≤ LEAN_THRESHOLD_LEFT) (hxr : LEAN_THRESHOLD_RIGHT ≤ nose.x) :
    classifyCalibrated nose y ts st2 = (Gesture.NONE, st2) := by
  simp only [classifyCalibrated]
  have h1 : ¬ (st2.baselineHipY - y > JUMP_THRESHOLD_Y ∧
      ts - st2.lastJumpTime > JUMP_COOLDOWN ∧
      ts - st2.lastGestureTime > LANE_CHANGE_COOLDOWN) := by
    rw [hbase, sub_self]
    rintro ⟨hj, -, -⟩
    rw [JUMP_THRESHOLD_Y] at hj
    norm_num at hj
  rw [if_neg h1]
  by_cases h2 : ts - st2.lastGestureTime < LANE_CHANGE_COOLDOWN
  · rw [if_pos h2]
  · rw [if_neg h2, if_neg (not_lt.mpr hxl), if_neg (not_lt.mpr hxr)]

/-- The calibration branch of a classifier step: push the torso Y, set the
baseline to the running mean, return NONE. -/
theorem stepSample_calibrating (st : GestureState) (s : Sample)
    (hcal : st.hipYHistory.length < 30) :
    stepSample st s =
      (Gesture.NONE,
        { st with
          hipYHistory := st.hipYHistory ++
            [torsoY s.leftHip s.rightHip s.leftShoulder s.rightShoulder],
          baselineHipY :=
            (st.hipYHistory ++
              [torsoY s.leftHip s.rightHip s.leftShoulder s.rightShoulder]).sum /
            (((st.hipYHistory ++
              [torsoY s.leftHip s.rightHip s.leftShoulder s.rightShoulder]).length : ℕ) : ℚ) }) := by
  simp only [stepSample, detectGestureCore, if_pos hcal]

/-- The calibrated branch of a classifier step: drift, then classify. -/
theorem stepSample_calibrated (st : GestureState) (s : Sample)
    (hcal : ¬ st.hipYHistory.length < 30) :
    stepSample st s =
      classifyCalibrated s.nose
        (torsoY s.leftHip s.rightHip s.leftShoulder s.rightShoulder)
        s.timestamp
        (driftBaseline st
          (torsoY s.leftHip s.rightHip s.leftShoulder s.rightShoulder)) := by
  simp only [stepSample, detectGestureCore, if_neg hcal]

/-- Emitting JUMP requires both cooldowns to have elapsed and restamps
lastJumpTime with the sample's timestamp. -/
theorem stepSample_jump_facts (st : GestureState) (s : Sample)
    (h : (stepSample st s).1 = Gesture.JUMP) :
    JUMP_COOLDOWN < s.timestamp - st.lastJumpTime ∧
    LANE_CHANGE_COOLDOWN < s.timestamp - st.lastGestureTime ∧
    (stepSample st s).2.lastJumpTime = s.timestamp := by
  by_cases hcal : st.hipYHistory.length < 30
  · rw [stepSample_calibrating st s hcal] at h
    exact absurd h (by simp)
  · rw [stepSample_calibrated st s hcal] at h ⊢
    have hj := classifyCalibrated_jump s.nose
      (torsoY s.leftHip s.rightHip s.leftShoulder s.rightShoulder)
      s.timestamp
      (driftBaseline st (torsoY s.leftHip s.rightHip s.leftShoulder s.rightShoulder)) h
    rw [driftBaseline_lastJumpTime, driftBaseline_lastGestureTime] at hj
    exact hj

/-- A step that does not emit JUMP leaves lastJumpTime alone. -/
theorem stepSample_nojump (st : GestureState) (s : Sample)
    (h : (stepSample st s).1 ≠ Gesture.JUMP) :
    (stepSample st s).2.lastJumpTime = st.lastJumpTime := by
  by_cases hcal : st.hipYHistory.length < 30
  · rw [stepSample_calibrating st s hcal]
  · rw [stepSample_calibrated st s hcal] at h ⊢
    rw [classifyCalibrated_nojump _ _ _ _ h, driftBaseline_lastJumpTime]

/-- Emitting a lean requires the lane-change cooldown to have elapsed and
restamps lastGestureTime with the sample's timestamp. -/
theorem stepSample_lean_facts (st : GestureState) (s : Sample)
    (h : (stepSample st s).1 = Gesture.LEFT ∨ (stepSample st s).1 = Gesture.RIGHT) :
    LANE_CHANGE_COOLDOWN ≤ s.timestamp - st.lastGestureTime ∧
    (stepSample st s).2.lastGestureTime = s.timestamp := by
  by_cases hcal : st.hipYHistory.length < 30
  · rw [stepSample_calibrating st s hcal] at h
    rcases h with h | h <;> exact absurd h (by simp)
  · rw [stepSample_calibrated st s hcal] at h ⊢
    have hl := classifyCalibrated_lean s.nose
      (torsoY s.leftHip s.rightHip s.leftShoulder s.rightShoulder)
      s.timestamp
      (driftBaseline st (torsoY s.leftHip s.rightHip s.leftShoulder s.rightShoulder)) h
    rw [driftBaseline_lastGestureTime] at hl
    exact hl

/-! ## Run-level lemmas about the gesture classifier -/

theorem runSamples_nil (st : GestureState) : runSamples st [] = ([], st) := rfl

theorem runSamples_cons (st : GestureState) (s : Sample) (rest : List Sample) :
    runSamples st (s :: rest) =
      (((stepSample st s).1, s.timestamp) ::
        (runSamples (stepSample st s).2 rest).1,
       (runSamples (stepSample st s).2 rest).2) := rfl

theorem runSamples_append (st : GestureState) (l1 l2 : List Sample) :
    runSamples st (l1 ++ l2) =
      ((runSamples st l1).1 ++ (runSamples (runSamples st l1).2 l2).1,
       (runSamples (runSamples st l1).2 l2).2) := by
  induction l1 generalizing st with
  | nil => simp [runSamples_nil]
  | cons s rest ih =>
      rw [List.cons_append, runSamples_cons, runSamples_cons, ih]
      simp

theorem jumpTimes_cons (g : Gesture) (t : ℚ) (out : List (Gesture × ℚ)) :
    jumpTimes ((g, t) :: out) =
      if g = Gesture.JUMP then t :: jumpTimes out else jumpTimes out := by
  unfold jumpTimes
  rw [List.filter_cons]
  by_cases hg : g = Gesture.JUMP
  · simp [hg]
  · simp [hg]

/-- Core spacing invariant: starting from any state, the timestamps of the
JUMPs emitted along a run, prefixed with the state's lastJumpTime, form a
chain in which each entry exceeds its predecessor by more than
JUMP_COOLDOWN. -/
theorem run_jump_chain (ss : List Sample) (st : GestureState) :
    List.Chain' (fun a b => a + JUMP_COOLDOWN < b)
      (st.lastJumpTime :: jumpTimes (runSamples st ss).1) := by
  induction ss generalizing st with
  | nil => simp [runSamples_nil, jumpTimes]
  | cons s rest ih =>
      rw [runSamples_cons, jumpTimes_cons]
      by_cases hg : (stepSample st s).1 = Gesture.JUMP
      · rw [if_pos hg]
        have hj := stepSample_jump_facts st s hg
        refine List.chain'_cons.mpr ⟨by linarith [hj.1], ?_⟩
        have := ih (stepSample st s).2
        rwa [hj.2.2] at this
      · rw [if_neg hg]
        have := ih (stepSample st s).2
        rwa [stepSample_nojump st s hg] at this

/-- Pairwise form of the spacing invariant: any two JUMPs of a run are
more than JUMP_COOLDOWN apart. -/
theorem run_jump_pairwise (ss : List Sample) (st : GestureState) :
    List.Pairwise (fun a b => a + JUMP_COOLDOWN < b)
      (jumpTimes (runSamples st ss).1) := by
  have htr : IsTrans ℚ (fun a b : ℚ => a + JUMP_COOLDOWN < b) := by
    refine ⟨?_⟩
    intro a b c hab hbc
    have : (0:ℚ) < JUMP_COOLDOWN := by norm_num [JUMP_COOLDOWN]
    linarith
  have hchain := run_jump_chain ss st
  have := (List.chain'_cons'.mp hchain).2
  exact List.chain'_iff_pairwise.mp this

theorem postureSamples_nil (nose lh rh ls rs : Landmark) :
    postureSamples nose lh rh ls rs [] = [] := rfl

theorem postureSamples_cons (nose lh rh ls rs : Landmark) (t : ℚ) (tss : List ℚ) :
    postureSamples nose lh rh ls rs (t :: tss) =
      { nose := nose, leftHip := lh, rightHip := rh, leftShoulder := ls,
        rightShoulder := rs, timestamp := t } ::
        postureSamples nose lh rh ls rs tss := rfl

/-- Running an identical posture while still calibrating: every sample
returns NONE, the buffer fills with copies of the torso Y, and the
baseline is that torso Y (the mean of identical values). -/
theorem runSamples_calibration (nose lh rh ls rs : Landmark) (y : ℚ)
    (hy : torsoY lh rh ls rs = y) (tss : List ℚ) (k : ℕ) (jt gt : ℚ)
    (hk : 1 ≤ k) (hlen : k + tss.length ≤ 30) :
    runSamples
      { hipYHistory := List.replicate k y, baselineHipY := y,
        lastJumpTime := jt, lastGestureTime := gt }
      (postureSamples nose lh rh ls rs tss) =
      (tss.map (fun t => (Gesture.NONE, t)),
       { hipYHistory := List.replicate (k + tss.length) y, baselineHipY := y,
         lastJumpTime := jt, lastGestureTime := gt }) := by
  induction tss generalizing k with
  | nil => simp [postureSamples, runSamples_nil]
  | cons t rest ih =>
      have hcal : (List.replicate k y).length < 30 := by
        rw [List.length_replicate]
        simp only [List.length_cons] at hlen
        omega
      have hstep := stepSample_calibrating
        { hipYHistory := List.replicate k y, baselineHipY := y,
          lastJumpTime := jt, lastGestureTime := gt }
        { nose := nose, leftHip := lh, rightHip := rh, leftShoulder := ls,
          rightShoulder := rs, timestamp := t } hcal
      dsimp only at hstep
      have hhist : List.replicate k y ++ [torsoY lh rh ls rs] =
          List.replicate (k + 1) y := by
        rw [hy, ← List.replicate_succ']
      rw [hhist] at hstep
      have hbase :
          ((List.replicate (k+1) y).sum : ℚ) /
            (((List.replicate (k+1) y).length : ℕ) : ℚ) = y := by
        rw [List.sum_replicate, List.length_replicate, nsmul_eq_mul]
        have hne : (((k+1 : ℕ) : ℚ)) ≠ 0 := by
          exact_mod_cast Nat.succ_ne_zero k
        field_simp
      rw [hbase] at hstep
      have hrest := ih (k+1) (by omega) (by
        simp only [List.length_cons] at hlen
        omega)
      rw [postureSamples_cons, runSamples_cons, hstep]
      simp only [List.map_cons]
      rw [hrest]
      have hkk : k + 1 + rest.length = k + (rest.length + 1) := by omega
      simp [hkk]

/-- Running an identical posture with a neutral nose after calibration:
every sample returns NONE and the state is unchanged. -/
theorem runSamples_calibrated_neutral (nose lh rh ls rs : Landmark) (y : ℚ)
    (hy : torsoY lh rh ls rs = y)
    (hxl : nose.x ≤ LEAN_THRESHOLD_LEFT) (hxr : LEAN_THRESHOLD_RIGHT ≤ nose.x)
    (tss : List ℚ) (jt gt : ℚ) :
    runSamples
      { hipYHistory := List.replicate 30 y, baselineHipY := y,
        lastJumpTime := jt, lastGestureTime := gt }
      (postureSamples nose lh rh ls rs tss) =
      (tss.map (fun t => (Gesture.NONE, t)),
       { hipYHistory := List.replicate 30 y, baselineHipY := y,
         lastJumpTime := jt, lastGestureTime := gt }) := by
  induction tss with
  | nil => simp [postureSamples, runSamples_nil]
  | cons t rest ih =>
      have hcal : ¬ (List.replicate 30 y).length < 30 := by
        rw [List.length_replicate]
        omega
      have hstep := stepSample_calibrated
        { hipYHistory := List.replicate 30 y, baselineHipY := y,
          lastJumpTime := jt, lastGestureTime := gt }
        { nose := nose, leftHip := lh, rightHip := rh, leftShoulder := ls,
          rightShoulder := rs, timestamp := t } hcal
      dsimp only at hstep
      rw [hy] at hstep
      rw [driftBaseline_self _ _ rfl] at hstep
      rw [classifyCalibrated_neutral nose y t _ rfl hxl hxr] at hstep
      rw [postureSamples_cons, runSamples_cons, hstep]
      simp only [List.map_cons]
      rw [ih]

/-! ## Concrete postures and samples for the classifier scenarios -/

theorem torsoY_stand : torsoY torsoStand torsoStand torsoStand torsoStand = 1/2 := by
  norm_num [torsoY, torsoStand]

theorem torsoY_up : torsoY torsoUp torsoUp torsoUp torsoUp = 2/5 := by
  norm_num [torsoY, torsoUp]

/-- The very first sample after a reset: calibration pushes the torso Y
and the mean of one sample is that sample. -/
theorem stepSample_from_reset (nose lh rh ls rs : Landmark) (y t : ℚ)
    (hy : torsoY lh rh ls rs = y) :
    stepSample resetGestureState
      { nose := nose, leftHip := lh, rightHip := rh, leftShoulder := ls,
        rightShoulder := rs, timestamp := t } =
      (Gesture.NONE,
        { hipYHistory := List.replicate 1 y, baselineHipY := y,
          lastJumpTime := 0, lastGestureTime := 0 }) := by
  have hcal : (resetGestureState.hipYHistory).length < 30 := by
    norm_num [resetGestureState]
  rw [stepSample_calibrating _ _ hcal]
  dsimp only
  rw [hy]
  simp [resetGestureState, List.replicate_one]

/-- A full identical-posture run from reset with a neutral nose: every
output is NONE and the classifier converges to the posture's torso Y with
untouched cooldowns. -/
theorem runSamples_reset_identical (nose lh rh ls rs : Landmark) (y : ℚ)
    (hy : torsoY lh rh ls rs = y)
    (hxl : nose.x ≤ LEAN_THRESHOLD_LEFT) (hxr : LEAN_THRESHOLD_RIGHT ≤ nose.x)
    (tss : List ℚ) (hn : 30 ≤ tss.length) :
    runSamples resetGestureState (postureSamples nose lh rh ls rs tss) =
      (tss.map (fun t => (Gesture.NONE, t)),
       { hipYHistory := List.replicate 30 y, baselineHipY := y,
         lastJumpTime := 0, lastGestureTime := 0 }) := by
  match tss, hn with
  | t0 :: rest, hn =>
    have hr29 : 29 ≤ rest.length := by
      simp only [List.length_cons] at hn
      omega
    have hsplit : rest = rest.take 29 ++ rest.drop 29 :=
      (List.take_append_drop 29 rest).symm
    have hlen : (rest.take 29).length = 29 := by
      rw [List.length_take]
      omega
    rw [postureSamples_cons, runSamples_cons,
      stepSample_from_reset nose lh rh ls rs y t0 hy]
    dsimp only
    rw [hsplit]
    have hps : postureSamples nose lh rh ls rs (rest.take 29 ++ rest.drop 29) =
        postureSamples nose lh rh ls rs (rest.take 29) ++
          postureSamples nose lh rh ls rs (rest.drop 29) := by
      unfold postureSamples
      rw [List.map_append]
    rw [hps, runSamples_append]
    have hcal := runSamples_calibration nose lh rh ls rs y hy (rest.take 29)
      1 0 0 (le_refl 1) (by omega)
    rw [hlen] at hcal
    have h30 : 1 + 29 = 30 := by norm_num
    rw [h30] at hcal
    rw [hcal]
    dsimp only
    have hneu := runSamples_calibrated_neutral nose lh rh ls rs y hy hxl hxr
      (rest.drop 29) 0 0
    rw [hneu]
    simp only [List.map_cons, List.map_append]

/-- Concrete run of the thirty neutral calibration samples. -/
theorem run_calibSamples :
    runSamples resetGestureState calibSamples =
      ((List.replicate 30 (0:ℚ)).map (fun t => (Gesture.NONE, t)), stCalibrated) := by
  unfold calibSamples stCalibrated
  exact runSamples_reset_identical noseNeutral torsoStand torsoStand torsoStand
    torsoStand (1/2) torsoY_stand
    (by norm_num [noseNeutral, LEAN_THRESHOLD_LEFT])
    (by norm_num [noseNeutral, LEAN_THRESHOLD_RIGHT])
    (List.replicate 30 0) (by simp)

/-- A jump-eligible sample at the calibrated standing state fires JUMP
when both cooldowns have elapsed, restamping lastJumpTime only. -/
theorem step_jump_at (jt gt t : ℚ) (hj : JUMP_COOLDOWN < t - jt)
    (hg : LANE_CHANGE_COOLDOWN < t - gt) :
    stepSample
      { hipYHistory := List.replicate 30 (1/2), baselineHipY := 1/2,
        lastJumpTime := jt, lastGestureTime := gt } (jumpSample t) =
      (Gesture.JUMP,
        { hipYHistory := List.replicate 30 (1/2), baselineHipY := 1/2,
          lastJumpTime := t, lastGestureTime := gt }) := by
  have hcal : ¬ (List.replicate 30 ((1:ℚ)/2)).length < 30 := by simp
  rw [stepSample_calibrated _ _ hcal]
  dsimp only [jumpSample]
  rw [torsoY_up]
  have hdrift : driftBaseline
      { hipYHistory := List.replicate 30 (1/2), baselineHipY := 1/2,
        lastJumpTime := jt, lastGestureTime := gt } (2/5) =
      { hipYHistory := List.replicate 30 (1/2), baselineHipY := 1/2,
        lastJumpTime := jt, lastGestureTime := gt } := by
    unfold driftBaseline
    split_ifs with hd
    · exfalso
      rw [abs_sub_lt_iff] at hd
      norm_num at hd
    · rfl
  rw [hdrift]
  simp only [classifyCalibrated]
  split_ifs with h1 h2 h3 h4
  · rfl
  all_goals exact absurd ⟨by norm_num [JUMP_THRESHOLD_Y], hj, hg⟩ h1

/-- A jump-eligible sample inside the jump cooldown is suppressed and
(with a neutral nose outside the lane cooldown) produces NONE without
touching the state. -/
theorem step_jump_blocked (jt gt t : ℚ) (hj : t - jt ≤ JUMP_COOLDOWN)
    (hg : ¬ t - gt < LANE_CHANGE_COOLDOWN) :
    stepSample
      { hipYHistory := List.replicate 30 (1/2), baselineHipY := 1/2,
        lastJumpTime := jt, lastGestureTime := gt } (jumpSample t) =
      (Gesture.NONE,
        { hipYHistory := List.replicate 30 (1/2), baselineHipY := 1/2,
          lastJumpTime := jt, lastGestureTime := gt }) := by
  have hcal : ¬ (List.replicate 30 ((1:ℚ)/2)).length < 30 := by simp
  rw [stepSample_calibrated _ _ hcal]
  dsimp only [jumpSample]
  rw [torsoY_up]
  have hdrift : driftBaseline
      { hipYHistory := List.replicate 30 (1/2), baselineHipY := 1/2,
        lastJumpTime := jt, lastGestureTime := gt } (2/5) =
      { hipYHistory := List.replicate 30 (1/2), baselineHipY := 1/2,
        lastJumpTime := jt, lastGestureTime := gt } := by
    unfold driftBaseline
    split_ifs with hd
    · exfalso
      rw [abs_sub_lt_iff] at hd
      norm_num at hd
    · rfl
  rw [hdrift]
  simp only [classifyCalibrated]
  split_ifs with h1 h2 h3
  · exact absurd h1 (by
      rintro ⟨-, hcd, -⟩
      exact absurd hcd (not_lt.mpr hj))
  · exact absurd h2 (by
      unfold noseNeutral LEAN_THRESHOLD_LEFT
      norm_num)
  · exact absurd h3 (by
      unfold noseNeutral LEAN_THRESHOLD_RIGHT
      norm_num)
  · rfl

/-- A lean-left sample at the calibrated standing state outside the
lane-change cooldown fires LEFT, restamping lastGestureTime only. -/
theorem step_lean_at (jt gt t : ℚ) (hg : ¬ t - gt < LANE_CHANGE_COOLDOWN) :
    stepSample
      { hipYHistory := List.replicate 30 (1/2), baselineHipY := 1/2,
        lastJumpTime := jt, lastGestureTime := gt } (leanSample t) =
      (Gesture.LEFT,
        { hipYHistory := List.replicate 30 (1/2), baselineHipY := 1/2,
          lastJumpTime := jt, lastGestureTime := t }) := by
  have hcal : ¬ (List.replicate 30 ((1:ℚ)/2)).length < 30 := by simp
  rw [stepSample_calibrated _ _ hcal]
  dsimp only [leanSample]
  rw [torsoY_stand]
  rw [driftBaseline_self _ _ rfl]
  simp only [classifyCalibrated]
  split_ifs with h1 h2 h3
  · exact absurd h1 (by
      rintro ⟨hjd, -, -⟩
      norm_num [JUMP_THRESHOLD_Y] at hjd)
  · rfl
  all_goals
    refine absurd ?_ h2
    unfold noseLean LEAN_THRESHOLD_LEFT
    norm_num

/-- Calibration run of thirty standing samples with an arbitrary nose
position (the nose is not consulted during calibration). -/
theorem run_calib30 (nose : Landmark) :
    runSamples resetGestureState
      (postureSamples nose torsoStand torsoStand torsoStand torsoStand
        (List.replicate 30 0)) =
      ((List.replicate 30 (0:ℚ)).map (fun t => (Gesture.NONE, t)),
       { hipYHistory := List.replicate 30 (1/2), baselineHipY := 1/2,
         lastJumpTime := 0, lastGestureTime := 0 }) := by
  have h30 : (List.replicate 30 (0:ℚ)) = 0 :: List.replicate 29 0 := rfl
  rw [h30, postureSamples_cons, runSamples_cons,
    stepSample_from_reset nose torsoStand torsoStand torsoStand torsoStand
      (1/2) 0 torsoY_stand]
  dsimp only
  have hcal := runSamples_calibration nose torsoStand torsoStand torsoStand
    torsoStand (1/2) torsoY_stand (List.replicate 29 0) 1 0 0 (le_refl 1)
    (by simp)
  have h129 : (1:ℕ) + (List.replicate 29 (0:ℚ)).length = 30 := by simp
  rw [h129] at hcal
  rw [hcal]
  dsimp only
  simp [List.map_cons]

/-! ## Claim C6: gesture cooldowns (corrected) -/

/-- Counterexample to claim C6 as stated: the claim asserts that any two
non-NONE gestures of different kinds are separated by at least
LANE_CHANGE_COOLDOWN (400 ms), but a JUMP updates only lastJumpTime, not
lastGestureTime, so a lean may follow a JUMP arbitrarily closely.  In the
concrete input sequence below — 30 calibration samples, a jump-eligible
displacement at t = 10000, and a lean at t = 10001 — the classifier emits
a JUMP and a LEFT only 1 ms apart (1 < 400). -/
theorem C6_cooldowns_counterexample :
    (runSamples resetGestureState
        (calibSamples ++ [jumpSample 10000, leanSample 10001])).1.map Prod.fst =
      List.replicate 30 Gesture.NONE ++ [Gesture.JUMP, Gesture.LEFT] ∧
    Gesture.JUMP ≠ Gesture.NONE ∧ Gesture.LEFT ≠ Gesture.NONE ∧
    Gesture.JUMP ≠ Gesture.LEFT ∧
    (10001 : ℚ) - 10000 < LANE_CHANGE_COOLDOWN := by
  refine ⟨?_, by decide, by decide, by decide, by norm_num [LANE_CHANGE_COOLDOWN]⟩
  rw [runSamples_append, run_calibSamples]
  dsimp only
  have h1 : stepSample stCalibrated (jumpSample 10000) =
      (Gesture.JUMP,
        { hipYHistory := List.replicate 30 (1/2), baselineHipY := 1/2,
          lastJumpTime := 10000, lastGestureTime := 0 }) :=
    step_jump_at 0 0 10000 (by norm_num [JUMP_COOLDOWN])
      (by norm_num [LANE_CHANGE_COOLDOWN])
  have h2 : stepSample
      { hipYHistory := List.replicate 30 (1/2), baselineHipY := 1/2,
        lastJumpTime := 10000, lastGestureTime := 0 } (leanSample 10001) =
      (Gesture.LEFT,
        { hipYHistory := List.replicate 30 (1/2), baselineHipY := 1/2,
          lastJumpTime := 10000, lastGestureTime := 10001 }) :=
    step_lean_at 10000 0 10001 (by norm_num [LANE_CHANGE_COOLDOWN])
  rw [runSamples_cons, h1]
  dsimp only
  rw [runSamples_cons, h2]
  dsimp only
  rw [runSamples_nil]
  simp [List.map_map, List.map_replicate, Function.comp]

/-- Claim C6 (amended): the same-kind spacing holds — any two JUMPs of a
run are more than JUMP_COOLDOWN (800 ms) apart (conjunct 1), and two
jump-eligible displacements fired 799 ms apart yield exactly one JUMP
(conjunct 4) — and a JUMP additionally requires more than
LANE_CHANGE_COOLDOWN since the last lane change (conjunct 2), while a
lean requires at least LANE_CHANGE_COOLDOWN since the last lane change
(conjunct 3).  However, the lane-change cooldown timestamp is not updated
by a JUMP, so a lean is NOT guaranteed to be 400 ms after a preceding
JUMP (see the counterexample); the claim's different-kind separation only
holds in the direction lean-then-other-gesture. -/
theorem C6_cooldowns_amended :
    (∀ (ss : List Sample) (st : GestureState),
      List.Pairwise (fun a b => a + JUMP_COOLDOWN < b)
        (jumpTimes (runSamples st ss).1)) ∧
    (∀ (st : GestureState) (s : Sample), (stepSample st s).1 = Gesture.JUMP →
      JUMP_COOLDOWN < s.timestamp - st.lastJumpTime ∧
      LANE_CHANGE_COOLDOWN < s.timestamp - st.lastGestureTime) ∧
    (∀ (st : GestureState) (s : Sample),
      (stepSample st s).1 = Gesture.LEFT ∨ (stepSample st s).1 = Gesture.RIGHT →
      LANE_CHANGE_COOLDOWN ≤ s.timestamp - st.lastGestureTime) ∧
    jumpTimes (runSamples resetGestureState
      (calibSamples ++ [jumpSample 10000, jumpSample 10799])).1 = [10000] := by
  refine ⟨?_, ?_, ?_, ?_⟩
  · intro ss st
    exact run_jump_pairwise ss st
  · intro st s h
    exact ⟨(stepSample_jump_facts st s h).1, (stepSample_jump_facts st s h).2.1⟩
  · intro st s h
    exact (stepSample_lean_facts st s h).1
  · rw [runSamples_append, run_calibSamples]
    dsimp only
    have h1 : stepSample stCalibrated (jumpSample 10000) =
        (Gesture.JUMP,
          { hipYHistory := List.replicate 30 (1/2), baselineHipY := 1/2,
            lastJumpTime := 10000, lastGestureTime := 0 }) :=
      step_jump_at 0 0 10000 (by norm_num [JUMP_COOLDOWN])
        (by norm_num [LANE_CHANGE_COOLDOWN])
    have h2 : stepSample
        { hipYHistory := List.replicate 30 (1/2), baselineHipY := 1/2,
          lastJumpTime := 10000, lastGestureTime := 0 } (jumpSample 10799) =
        (Gesture.NONE,
          { hipYHistory := List.replicate 30 (1/2), baselineHipY := 1/2,
            lastJumpTime := 10000, lastGestureTime := 0 }) :=
      step_jump_blocked 10000 0 10799 (by norm_num [JUMP_COOLDOWN])
        (by norm_num [LANE_CHANGE_COOLDOWN])
    rw [runSamples_cons, h1]
    dsimp only
    rw [runSamples_cons, h2]
    dsimp only
    rw [runSamples_nil]
    dsimp only
    unfold jumpTimes
    rw [List.filter_append]
    simp [List.filter_map, Function.comp, jumpSample]

/-- Witness for the amended C6 at a concrete input: the concrete JUMP
fired at t = 10000 from the freshly calibrated state indeed came more
than both cooldowns after the (zero) cooldown timestamps. -/
theorem C6_cooldowns_amended_witness :
    JUMP_COOLDOWN < (jumpSample 10000).timestamp - stCalibrated.lastJumpTime ∧
    LANE_CHANGE_COOLDOWN <
      (jumpSample 10000).timestamp - stCalibrated.lastGestureTime := by
  apply C6_cooldowns_amended.2.1 stCalibrated (jumpSample 10000)
  have h1 : stepSample stCalibrated (jumpSample 10000) =
      (Gesture.JUMP,
        { hipYHistory := List.replicate 30 (1/2), baselineHipY := 1/2,
          lastJumpTime := 10000, lastGestureTime := 0 }) :=
    step_jump_at 0 0 10000 (by norm_num [JUMP_COOLDOWN])
      (by norm_num [LANE_CHANGE_COOLDOWN])
  rw [h1]

/-! ## Claim C7: identical-posture calibration (corrected) -/

/-- Counterexample to claim C7 as stated: the claim promises NONE for
every sample of any ≥30-sample identical-posture sequence, but a posture
whose nose sits beyond the lean threshold (x = 0.7 > 0.60) triggers a
LEFT as soon as calibration ends and the lane-change cooldown allows: in
the concrete 31-sample identical-posture sequence below, sample 31 is
classified LEFT, not NONE. -/
theorem C7_calibration_counterexample :
    (runSamples resetGestureState
        (postureSamples noseLean torsoStand torsoStand torsoStand torsoStand
          (List.replicate 30 0 ++ [1000]))).1.map Prod.fst =
      List.replicate 30 Gesture.NONE ++ [Gesture.LEFT] ∧
    Gesture.LEFT ≠ Gesture.NONE ∧
    (List.replicate 30 (0:ℚ) ++ [1000]).length = 31 := by
  refine ⟨?_, by decide, by simp⟩
  have hps : postureSamples noseLean torsoStand torsoStand torsoStand torsoStand
      (List.replicate 30 0 ++ [1000]) =
      postureSamples noseLean torsoStand torsoStand torsoStand torsoStand
        (List.replicate 30 0) ++
      postureSamples noseLean torsoStand torsoStand torsoStand torsoStand
        [1000] := by
    unfold postureSamples
    rw [List.map_append]
  rw [hps, runSamples_append, run_calib30]
  dsimp only
  have h2 : stepSample
      { hipYHistory := List.replicate 30 (1/2), baselineHipY := 1/2,
        lastJumpTime := 0, lastGestureTime := 0 } (leanSample 1000) =
      (Gesture.LEFT,
        { hipYHistory := List.replicate 30 (1/2), baselineHipY := 1/2,
          lastJumpTime := 0, lastGestureTime := 1000 }) :=
    step_lean_at 0 0 1000 (by norm_num [LANE_CHANGE_COOLDOWN])
  have hone : postureSamples noseLean torsoStand torsoStand torsoStand
      torsoStand [1000] = [leanSample 1000] := rfl
  rw [hone, runSamples_cons, h2]
  dsimp only
  rw [runSamples_nil]
  simp [List.map_map, List.map_replicate, Function.comp]

/-- Claim C7 (amended): for every sequence of at least 30 identical-posture
samples fed to a freshly reset classifier whose nose X lies inside the
lean dead zone [0.40, 0.60], classify returns NONE for every sample and
the baseline converges to (exactly equals) that posture's torso Y — the
mean of the left/right hip and shoulder Y coordinates.  The dead-zone
restriction is forced by the counterexample: an identical posture leaning
beyond a nose threshold produces LEFT or RIGHT once calibration ends. -/
theorem C7_calibration_identical (nose lh rh ls rs : Landmark) (tss : List ℚ)
    (hn : 30 ≤ tss.length)
    (hxl : nose.x ≤ LEAN_THRESHOLD_LEFT) (hxr : LEAN_THRESHOLD_RIGHT ≤ nose.x) :
    (∀ p ∈ (runSamples resetGestureState
        (postureSamples nose lh rh ls rs tss)).1, p.1 = Gesture.NONE) ∧
    (runSamples resetGestureState
        (postureSamples nose lh rh ls rs tss)).2.baselineHipY =
      torsoY lh rh ls rs := by
  have h := runSamples_reset_identical nose lh rh ls rs (torsoY lh rh ls rs)
    rfl hxl hxr tss hn
  rw [h]
  constructor
  · intro p hp
    dsimp only at hp
    obtain ⟨t, -, rfl⟩ := List.mem_map.mp hp
    rfl
  · rfl

/-- Witness for the amended C7 at a concrete input: thirty neutral
standing samples all classify NONE and leave the baseline at the standing
torso Y of 0.5. -/
theorem C7_calibration_identical_witness :
    (∀ p ∈ (runSamples resetGestureState calibSamples).1, p.1 = Gesture.NONE) ∧
    (runSamples resetGestureState calibSamples).2.baselineHipY =
      torsoY torsoStand torsoStand torsoStand torsoStand :=
  C7_calibration_identical noseNeutral torsoStand torsoStand torsoStand
    torsoStand (List.replicate 30 0) (by simp)
    (by norm_num [noseNeutral, LEAN_THRESHOLD_LEFT])
    (by norm_num [noseNeutral, LEAN_THRESHOLD_RIGHT])

/-! ## Claim C8: missing landmarks (corrected) -/

/-- On a sample whose five landmarks are all present, detectGesture's
body coincides with the total classification function detectGestureCore:
the optional-nose path never reaches the crash. -/
theorem detectGestureNose_some (nose lh rh ls rs : Landmark) (ts : ℚ)
    (st : GestureState) :
    detectGestureNose (some nose) lh rh ls rs ts st =
      some (detectGestureCore nose lh rh ls rs ts st) := by
  simp only [detectGestureNose, detectGestureCore, classifyCalibratedNose,
    classifyCalibrated]
  split_ifs <;> rfl

/-- Counterexample to claim C8 as stated: a sample whose landmark list is
present but lacks the left hip (index 23) makes detectGesture dereference
the missing landmark (`leftHip.y` on `undefined`, read unconditionally at
gameUtils.ts line 128) and throw a TypeError — modelled as result `none`
— instead of rejecting the sample with an InvalidInput signal (conjunct
1).  And a sample missing only the nose is accepted, not rejected: from
the freshly reset classifier it returns a result (no crash, conjunct 2)
while mutating the classifier state — the calibration buffer grows from
length 0 to length 1 (conjuncts 2 and 3) — contradicting the claim that
state is left unchanged for every sample missing a required landmark. -/
theorem C8_invalid_input_counterexample :
    detectGesture (some missingHipLandmarks) 0 resetGestureState = none ∧
    (detectGesture (some missingNoseLandmarks) 0 resetGestureState).map
      (fun p => p.2.hipYHistory.length) = some 1 ∧
    resetGestureState.hipYHistory.length = 0 ∧
    missingHipLandmarks 0 ≠ none := by
  refine ⟨rfl, rfl, rfl, ?_⟩
  intro h
  simp [missingHipLandmarks] at h

/-- Claim C8 (amended): a sample whose landmark list is entirely absent is
ignored without crashing — NONE, no gesture, no state mutation — but
there is no InvalidInput signal (conjunct 1).  A sample missing any of
the four torso landmarks (left/right hip, left/right shoulder) crashes
with an unguarded property access instead of being rejected (conjunct 2).
A sample missing only the nose is neither rejected nor necessarily a
crash: during calibration it returns NONE while still mutating the
classifier state — the torso Y is pushed into the buffer and the baseline
recomputed (conjunct 3); once calibrated it returns NONE untouched by the
nose when the lane-change debounce fires (conjunct 4) and even emits JUMP
when the jump test passes (conjunct 5), crashing only when the lean test
dereferences the nose (conjunct 6). -/
theorem C8_missing_landmarks (ts : ℚ) (st : GestureState)
    (lm : Nat → Option Landmark) (lh rh ls rs : Landmark)
    (h23 : lm 23 = some lh) (h24 : lm 24 = some rh)
    (h11 : lm 11 = some ls) (h12 : lm 12 = some rs) (h0 : lm 0 = none) :
    detectGesture none ts st = some (Gesture.NONE, st) ∧
    (∀ lm2 : Nat → Option Landmark,
      lm2 23 = none ∨ lm2 24 = none ∨ lm2 11 = none ∨ lm2 12 = none →
      detectGesture (some lm2) ts st = none) ∧
    (st.hipYHistory.length < 30 →
      detectGesture (some lm) ts st =
        some (Gesture.NONE,
          { st with
            hipYHistory := st.hipYHistory ++ [torsoY lh rh ls rs],
            baselineHipY := (st.hipYHistory ++ [torsoY lh rh ls rs]).sum /
              (((st.hipYHistory ++ [torsoY lh rh ls rs]).length : ℕ) : ℚ) })) ∧
    (¬ st.hipYHistory.length < 30 →
      ts - (driftBaseline st (torsoY lh rh ls rs)).lastGestureTime <
        LANE_CHANGE_COOLDOWN →
      detectGesture (some lm) ts st =
        some (Gesture.NONE, driftBaseline st (torsoY lh rh ls rs))) ∧
    (¬ st.hipYHistory.length < 30 →
      ((driftBaseline st (torsoY lh rh ls rs)).baselineHipY -
          torsoY lh rh ls rs > JUMP_THRESHOLD_Y ∧
        ts - (driftBaseline st (torsoY lh rh ls rs)).lastJumpTime >
          JUMP_COOLDOWN ∧
        ts - (driftBaseline st (torsoY lh rh ls rs)).lastGestureTime >
          LANE_CHANGE_COOLDOWN) →
      detectGesture (some lm) ts st =
        some (Gesture.JUMP,
          { driftBaseline st (torsoY lh rh ls rs) with lastJumpTime := ts })) ∧
    (¬ st.hipYHistory.length < 30 →
      ¬ ((driftBaseline st (torsoY lh rh ls rs)).baselineHipY -
          torsoY lh rh ls rs > JUMP_THRESHOLD_Y ∧
        ts - (driftBaseline st (torsoY lh rh ls rs)).lastJumpTime >
          JUMP_COOLDOWN ∧
        ts - (driftBaseline st (torsoY lh rh ls rs)).lastGestureTime >
          LANE_CHANGE_COOLDOWN) →
      ¬ (ts - (driftBaseline st (torsoY lh rh ls rs)).lastGestureTime <
          LANE_CHANGE_COOLDOWN) →
      detectGesture (some lm) ts st = none) := by
  have hred : detectGesture (some lm) ts st =
      detectGestureNose none lh rh ls rs ts st := by
    unfold detectGesture
    dsimp only
    rw [h23, h24, h11, h12, h0]
  refine ⟨rfl, ?_, ?_, ?_, ?_, ?_⟩
  · intro lm2 h
    unfold detectGesture
    rcases e23 : lm2 23 with - | v23 <;> rcases e24 : lm2 24 with - | v24 <;>
      rcases e11 : lm2 11 with - | v11 <;> rcases e12 : lm2 12 with - | v12 <;>
      simp_all
  · intro hcal
    rw [hred]
    simp only [detectGestureNose]
    rw [if_pos hcal]
  · intro hcal hlt
    rw [hred]
    simp only [detectGestureNose]
    rw [if_neg hcal]
    simp only [classifyCalibratedNose]
    have hnj : ¬ ((driftBaseline st (torsoY lh rh ls rs)).baselineHipY -
        torsoY lh rh ls rs > JUMP_THRESHOLD_Y ∧
      ts - (driftBaseline st (torsoY lh rh ls rs)).lastJumpTime >
        JUMP_COOLDOWN ∧
      ts - (driftBaseline st (torsoY lh rh ls rs)).lastGestureTime >
        LANE_CHANGE_COOLDOWN) := by
      rintro ⟨-, -, h3⟩
      exact absurd hlt (not_lt.mpr (le_of_lt h3))
    rw [if_neg hnj, if_pos hlt]
  · intro hcal hjump
    rw [hred]
    simp only [detectGestureNose]
    rw [if_neg hcal]
    simp only [classifyCalibratedNose]
    rw [if_pos hjump]
  · intro hcal hnj hnd
    rw [hred]
    simp only [detectGestureNose]
    rw [if_neg hcal]
    simp only [classifyCalibratedNose]
    rw [if_neg hnj, if_neg hnd]

/-- Witness for the amended C8 at concrete inputs: the null landmark list
is ignored with the reset state untouched; the list missing the left hip
crashes; and the list missing only the nose, fed to the freshly reset
classifier, returns NONE while pushing the torso Y of the remaining
landmarks into the calibration buffer. -/
theorem C8_missing_landmarks_witness :
    detectGesture none 0 resetGestureState =
      some (Gesture.NONE, resetGestureState) ∧
    detectGesture (some missingHipLandmarks) 0 resetGestureState = none ∧
    detectGesture (some missingNoseLandmarks) 0 resetGestureState =
      some (Gesture.NONE,
        { resetGestureState with
          hipYHistory := resetGestureState.hipYHistory ++
            [torsoY landmarkHalf landmarkHalf landmarkHalf landmarkHalf],
          baselineHipY := (resetGestureState.hipYHistory ++
            [torsoY landmarkHalf landmarkHalf landmarkHalf landmarkHalf]).sum /
            (((resetGestureState.hipYHistory ++
              [torsoY landmarkHalf landmarkHalf landmarkHalf
                landmarkHalf]).length : ℕ) : ℚ) }) := by
  have h := C8_missing_landmarks 0 resetGestureState missingNoseLandmarks
    landmarkHalf landmarkHalf landmarkHalf landmarkHalf rfl rfl rfl rfl rfl
  exact ⟨h.1, h.2.1 missingHipLandmarks (Or.inl rfl),
    h.2.2.1 (by simp [resetGestureState])⟩

/-! ## Claim C9: id uniqueness (corrected) -/

theorem mkObstacle_id (i : ℚ) (l : ℕ) (z : ℚ) : (mkObstacle i l z).id = i := rfl

/-- An obstacle that fails the collision test leaves the gameOver flag of
the accumulator alone. -/
theorem processObstacle_no_window (speed dt time : ℚ) (pl : ℕ) (py : ℚ)
    (acc : TickAcc) (o : Obstacle)
    (h : ¬ collides (advanceObs speed dt o) pl py) :
    (processObstacle speed dt time pl py acc o).gameOver = acc.gameOver := by
  unfold processObstacle
  rw [scoreStep_gameOver]
  unfold collideStep
  rw [if_neg h]

theorem mkObstacle_z (i : ℚ) (l : ℕ) (z : ℚ) : (mkObstacle i l z).z = z := rfl

theorem tick_decorations_def (s : EngineState) (dt time : ℚ) :
    (tick s dt time).decorations =
      advanceDecos (speedFor s.score) dt s.decorations := rfl

theorem tick_rngIdx_def (s : EngineState) (dt time : ℚ) :
    (tick s dt time).rngIdx = s.rngIdx := rfl

theorem nodup_insert_middle {l1 l2 : List ℕ} {a : ℕ}
    (h : (l1 ++ l2).Nodup) (ha : a ∉ l1 ++ l2) : ((l1 ++ [a]) ++ l2).Nodup := by
  have hperm : List.Perm (l1 ++ a :: l2) (a :: (l1 ++ l2)) := List.perm_middle
  have : (a :: (l1 ++ l2)).Nodup := List.nodup_cons.mpr ⟨ha, h⟩
  have h2 : (l1 ++ a :: l2).Nodup := hperm.nodup_iff.mpr this
  simpa using h2

theorem nodup_append_singleton {l1 l2 : List ℕ} {a : ℕ}
    (h : (l1 ++ l2).Nodup) (ha : a ∉ l1 ++ l2) : (l1 ++ (l2 ++ [a])).Nodup := by
  have hperm : List.Perm ((l1 ++ l2) ++ [a]) (a :: (l1 ++ l2)) :=
    List.perm_append_singleton a (l1 ++ l2)
  have : (a :: (l1 ++ l2)).Nodup := List.nodup_cons.mpr ⟨ha, h⟩
  have h2 : ((l1 ++ l2) ++ [a]).Nodup := hperm.nodup_iff.mpr this
  simpa [List.append_assoc] using h2

/-- The obstacle ids surviving a tick form a sublist of the previous
obstacle ids (advance preserves the id; culling removes entries). -/
theorem tick_obstacle_ids_sublist (s : EngineState) (dt time : ℚ) :
    List.Sublist ((tick s dt time).obstacles.map Obstacle.id)
      (s.obstacles.map Obstacle.id) := by
  rw [tick_obstacles_def, foldl_process_kept]
  simp only [List.nil_append]
  have h1 := (List.filter_sublist
    (l := s.obstacles.map (advanceObs (speedFor s.score) dt))
    (p := fun o => decide (o.z ≤ 5))).map Obstacle.id
  rw [List.map_map] at h1
  have h2 : (Obstacle.id ∘ advanceObs (speedFor s.score) dt) = Obstacle.id := by
    funext o
    rfl
  rwa [h2] at h1

/-- Likewise for decoration ids. -/
theorem tick_decoration_ids_sublist (s : EngineState) (dt time : ℚ) :
    List.Sublist ((tick s dt time).decorations.map Decoration.id)
      (s.decorations.map Decoration.id) := by
  rw [tick_decorations_def]
  unfold advanceDecos
  have h1 := (List.filter_sublist
    (l := s.decorations.map
      (fun d => { d with z := d.z + speedFor s.score * dt }))
    (p := fun d => decide (d.z ≤ 20))).map Decoration.id
  rw [List.map_map] at h1
  have h2 : (Decoration.id ∘
      (fun d : Decoration => { d with z := d.z + speedFor s.score * dt })) =
      Decoration.id := by
    funext d
    rfl
  rwa [h2] at h1

/-- Every session step preserves the freshness invariant. -/
theorem sessionStep_preserves_idsFresh (rng : ℕ → ℚ) (s s2 : EngineState)
    (hstep : SessionStep rng s s2) (h : IdsFresh rng s) : IdsFresh rng s2 := by
  obtain ⟨oi, di, hnd, hbound, hoi, hdi⟩ := h
  cases hstep with
  | spawnObstacle hgo =>
      refine ⟨oi ++ [s.rngIdx + 1], di, ?_, ?_, ?_, hdi⟩
      · apply nodup_insert_middle hnd
        intro hmem
        have := hbound _ hmem
        omega
      · intro i hi
        dsimp only
        simp only [List.append_assoc, List.mem_append, List.mem_singleton] at hi
        rcases hi with hi | hi | hi
        · have := hbound i (by simp [hi])
          omega
        · omega
        · have := hbound i (by simp [hi])
          omega
      · simp only [List.map_append, List.map_singleton, mkObstacle_id]
        rw [hoi]
  | spawnDecoration j k x z rot ty hgo =>
      refine ⟨oi, di ++ [s.rngIdx + j], ?_, ?_, hoi, ?_⟩
      · apply nodup_append_singleton hnd
        intro hmem
        have := hbound _ hmem
        omega
      · intro i hi
        dsimp only
        simp only [List.mem_append, List.mem_singleton] at hi
        rcases hi with hi | hi | hi
        · have := hbound i (by simp [hi])
          omega
        · have := hbound i (by simp [hi])
          omega
        · omega
      · simp only [List.map_append, List.map_singleton]
        rw [hdi]
  | frameStep dt time =>
      unfold frame
      split
      · exact ⟨oi, di, hnd, hbound, hoi, hdi⟩
      · have ho := tick_obstacle_ids_sublist s dt time
        rw [hoi] at ho
        obtain ⟨oi2, hoi2sub, hoi2eq⟩ := List.sublist_map_iff.mp ho
        have hd := tick_decoration_ids_sublist s dt time
        rw [hdi] at hd
        obtain ⟨di2, hdi2sub, hdi2eq⟩ := List.sublist_map_iff.mp hd
        refine ⟨oi2, di2, ?_, ?_, hoi2eq, hdi2eq⟩
        · exact hnd.sublist (hoi2sub.append hdi2sub)
        · intro i hi
          have hmem : i ∈ oi ++ di := (hoi2sub.append hdi2sub).subset hi
          have := hbound i hmem
          rw [tick_rngIdx_def]
          exact this

/-- Every state reachable from the initial state satisfies the freshness
invariant. -/
theorem reachable_idsFresh (rng : ℕ → ℚ) (s : EngineState)
    (h : Reachable rng initState s) : IdsFresh rng s := by
  induction h with
  | refl => exact ⟨[], [], by simp, by simp, rfl, rfl⟩
  | tail hreach hstep ih => exact sessionStep_preserves_idsFresh rng _ _ hstep ih

/-- Claim C9 (amended): every live entity's id is a fresh
`Math.random()` draw, and the code performs no uniqueness check, so the
live obstacle and decoration ids are pairwise distinct exactly when the
random draws backing them are: under an injective draw stream the
invariant holds in every reachable state, but a stream that repeats a
value violates it (see the counterexample). -/
theorem C9_unique_ids (rng : ℕ → ℚ) (hinj : Function.Injective rng)
    (s : EngineState) (hreach : Reachable rng initState s) :
    (liveIds s).Nodup := by
  obtain ⟨oi, di, hnd, -, hoi, hdi⟩ := reachable_idsFresh rng s hreach
  unfold liveIds
  rw [hoi, hdi, ← List.map_append]
  exact hnd.map hinj

/-- Witness for the amended C9: with the injective stream n ↦ n, the
initial state (reachable by zero steps) has pairwise distinct live ids. -/
theorem C9_unique_ids_witness : (liveIds initState).Nodup := by
  have hinj : Function.Injective (fun n : ℕ => (n : ℚ)) := by
    intro a b hab
    dsimp only at hab
    exact_mod_cast hab
  exact C9_unique_ids (fun n => (n : ℚ)) hinj initState Relation.ReflTransGen.refl

/-- Counterexample to claim C9 as stated: id uniqueness is not guaranteed
by the code — `Math.random().toString()` is used with no collision check.
Under a draw stream that repeats the value 0.5, the reachable state after
spawn, one frame, and a second spawn holds two distinct live obstacles
(one advanced, one at the spawn depth) sharing the id 0.5. -/
theorem C9_unique_ids_counterexample :
    Reachable constHalfRng initState c9State3 ∧
    liveIds c9State3 = [1/2, 1/2] ∧
    ¬ (liveIds c9State3).Nodup ∧
    c9State3.obstacles.length = 2 := by
  have hobs1 : c9State1.obstacles =
      [mkObstacle (1/2) (Int.toNat ⌊(1:ℚ)/2 * 3⌋) SPAWN_DISTANCE] := rfl
  have hscore1 : c9State1.score = 0 := rfl
  have hsp : speedFor 0 = 15 := by
    norm_num [speedFor, START_SPEED, MAX_SPEED, min_def]
  have hframe2 : c9State2 = tick c9State1 (1/10) 1000 := by
    unfold c9State2 frame
    rfl
  have hgo2 : c9State2.gameOver = false := by
    rw [hframe2, tick_gameOver_def, hscore1, hsp, hobs1]
    rw [List.foldl_cons, List.foldl_nil]
    rw [processObstacle_no_window]
    · rfl
    · intro hc
      have hz := hc.1
      rw [advanceObs_z, mkObstacle_z, SPAWN_DISTANCE] at hz
      norm_num at hz
  have hstep1 : SessionStep constHalfRng initState c9State1 :=
    SessionStep.spawnObstacle initState rfl
  have hstep2 : SessionStep constHalfRng c9State1 c9State2 :=
    SessionStep.frameStep c9State1 (1/10) 1000
  have hstep3 : SessionStep constHalfRng c9State2 c9State3 :=
    SessionStep.spawnObstacle c9State2 hgo2
  have hreach : Reachable constHalfRng initState c9State3 :=
    Relation.ReflTransGen.head hstep1
      (Relation.ReflTransGen.head hstep2 (Relation.ReflTransGen.single hstep3))
  have hobs2 : c9State2.obstacles =
      [advanceObs 15 (1/10)
        (mkObstacle (1/2) (Int.toNat ⌊(1:ℚ)/2 * 3⌋) SPAWN_DISTANCE)] := by
    rw [hframe2, tick_obstacles_def, foldl_process_kept, hscore1, hsp, hobs1]
    have hz : ((advanceObs 15 (1/10)
        (mkObstacle (1/2) (Int.toNat ⌊(1:ℚ)/2 * 3⌋) SPAWN_DISTANCE)).z ≤ 5) := by
      rw [advanceObs_z, mkObstacle_z, SPAWN_DISTANCE]
      norm_num
    have hzd : decide ((advanceObs 15 (1/10)
        (mkObstacle (1/2) (Int.toNat ⌊(1:ℚ)/2 * 3⌋) SPAWN_DISTANCE)).z ≤ 5) =
        true := decide_eq_true hz
    rw [List.map_singleton, List.filter_singleton, hzd]
    simp
  have hobs3 : c9State3.obstacles = c9State2.obstacles ++
      [mkObstacle (1/2) (Int.toNat ⌊(1:ℚ)/2 * 3⌋) SPAWN_DISTANCE] := rfl
  have hdec3 : c9State3.decorations = [] := by
    show c9State2.decorations = []
    rw [hframe2, tick_decorations_def]
    rfl
  have hids : liveIds c9State3 = [1/2, 1/2] := by
    unfold liveIds
    rw [hobs3, hdec3, hobs2]
    simp [advanceObs_id, mkObstacle_id]
  refine ⟨hreach, hids, ?_, ?_⟩
  · rw [hids]
    simp
  · rw [hobs3, hobs2]
    simp

end FloorIsLava
